import Mathlib

/-!
# Ali image relay: bounded polling of an asynchronous task and response translation

Shallow embedding of `relay/channel/ali/image.go`.  Effects (HTTP round trips,
sleeps, log lines, writes to the caller) are made explicit by threading a
`World` value; the upstream is a script indexed by the number of round trips
already made, so that successive polls of one task may answer differently.
-/

namespace Ali

/-- Modelled from the spec: the vendor payload types (`AliResponse` and its
parts) are declared outside the given sources; one result item of a finished
task, with the two fields the translator reads. -/
structure TaskResult where
  Url : String
  B64Image : String
deriving DecidableEq, Repr, Inhabited

/-- Modelled from the spec: the `output` object of a vendor payload, with the
fields read by `asyncTaskWait`, `responseAli2OpenAIImage` and
`aliImageHandler`. -/
structure AliOutput where
  TaskId : String
  TaskStatus : String
  Message : String
  Code : String
  Results : List TaskResult
deriving DecidableEq, Repr, Inhabited

/-- Modelled from the spec: the decoded vendor payload.  `default` is Go's zero
value: every string empty, no results. -/
structure AliResponse where
  Output : AliOutput
  Message : String
  Code : String
deriving DecidableEq, Repr, Inhabited

/-- Modelled from the spec: the fields of `relaycommon.RelayInfo` used here
(`StartTime` as Unix seconds). -/
structure RelayInfo where
  BaseUrl : String
  ApiKey : String
  StartTime : Int
deriving DecidableEq, Repr, Inhabited

/-- An outgoing request as built by `updateTask`. -/
structure Request where
  Method : String
  Url : String
  Authorization : String
deriving DecidableEq, Repr, Inhabited

/-- Canonical item, `dto.ImageData`. -/
structure ImageData where
  Url : String
  B64Json : String
  RevisedPrompt : String
deriving DecidableEq, Repr, Inhabited

/-- Canonical result, `dto.ImageResponse`. -/
structure ImageResponse where
  Created : Int
  Data : List ImageData
deriving DecidableEq, Repr, Inhabited

/-- The error codes of package `types` used by the handler. -/
inductive ErrorCode where
  | ReadResponseBodyFailed
  | BadResponseBody
  | BadResponse
deriving DecidableEq, Repr

/-- Payload handed to `types.WithOpenAIError`. -/
structure OpenAIError where
  Message : String
  Type_ : String
  Param : String
  Code : String
deriving DecidableEq, Repr, Inhabited

/-- A `*types.NewAPIError`, by the constructor that built it. -/
inductive NewAPIError where
  | NewError (err : String) (code : ErrorCode)
  | WithOpenAIError (e : OpenAIError) (statusCode : Int)
deriving DecidableEq, Repr

/-- What the handler does to the caller's `gin` writer. -/
inductive WriterOp where
  | SetHeader (key value : String)
  | WriteHeader (statusCode : Int)
  | Write (body : String)
deriving DecidableEq, Repr

/-- The submit response handed to the handler: status code and the outcome of
reading its body. -/
structure HttpResponse where
  StatusCode : Int
  Body : Except String String

/-- The parts of `gin.Context` read by the handler. -/
structure Context where
  response_format : String
deriving DecidableEq, Repr, Inhabited

/-- Everything outside the program: the HTTP client, the JSON codec and the
image downloader.  `roundTrip n` answers the status request issued when `n`
status requests were issued before; `getImageFromUrl n` likewise for image
downloads (it returns the MIME type and the base64 text). -/
structure Upstream where
  newRequest : String → String → Option String
  roundTrip : Nat → Request → Except String String
  unmarshal : String → Except String AliResponse
  getImageFromUrl : Nat → String → Except String (String × String)
  marshal : ImageResponse → Except String String

/-- Observable effects so far. -/
structure World where
  taskFetches : Nat
  imageFetches : Nat
  slept : List Nat
  logs : List String
  written : List WriterOp
  translatorCalls : Nat
deriving DecidableEq, Repr, Inhabited

/-- The result triple of `asyncTaskWait`: response pointer, raw body, error
(`none` is Go's `nil`). -/
structure WaitResult where
  response : Option AliResponse
  body : Option String
  err : Option String
deriving DecidableEq, Repr, Inhabited

def World.sysError (w : World) (msg : String) : World :=
  { w with logs := w.logs ++ [msg] }

def World.sleep (w : World) (seconds : Nat) : World :=
  { w with slept := w.slept ++ [seconds] }

/-- The request `updateTask` sends for a task. -/
def taskRequest (info : RelayInfo) (taskID : String) : Request :=
  { Method := "GET",
    Url := info.BaseUrl ++ "/api/v1/tasks/" ++ taskID,
    Authorization := "Bearer " ++ info.ApiKey }

/-- `updateTask`: one status fetch.  Returns the decoded response, the error
and the raw body, in the order of the source. -/
def updateTask (up : Upstream) (info : RelayInfo) (taskID : String) (w : World) :
    (AliResponse × Option String × Option String) × World :=
  let url := info.BaseUrl ++ "/api/v1/tasks/" ++ taskID
  let aliResponse : AliResponse := default
  match up.newRequest "GET" url with
  | some err => ((aliResponse, some err, none), w)
  | none =>
    let req := taskRequest info taskID
    let w1 := { w with taskFetches := w.taskFetches + 1 }
    match up.roundTrip w.taskFetches req with
    | .error err =>
      ((aliResponse, some err, none), w1.sysError ("updateTask client.Do err: " ++ err))
    | .ok responseBody =>
      match up.unmarshal responseBody with
      | .error err =>
        ((aliResponse, some err, none), w1.sysError ("updateTask NewDecoder err: " ++ err))
      | .ok response => ((response, none, some responseBody), w1)

def waitSeconds : Nat := 3

def maxStep : Nat := 20

/-- The four statuses on which the `switch` of `asyncTaskWait` returns. -/
def isTerminalStatus (s : String) : Bool :=
  s = "FAILED" || s = "CANCELED" || s = "SUCCEEDED" || s = "UNKNOWN"

/-- The `for` loop of `asyncTaskWait`, entered with the current value of
`step`.  `taskResponse` is the local that the source declares and never
assigns. -/
def asyncTaskWaitLoop (up : Upstream) (info : RelayInfo) (taskID : String)
    (step : Nat) (w : World) : WaitResult × World :=
  let taskResponse : AliResponse := default
  let step1 := step + 1
  match updateTask up info taskID w with
  | ((rsp, err, body), w1) =>
    let responseBody := body
    match err with
    | some e => (⟨some taskResponse, responseBody, some e⟩, w1)
    | none =>
      if rsp.Output.TaskStatus = "" then
        (⟨some taskResponse, responseBody, none⟩, w1)
      else if isTerminalStatus rsp.Output.TaskStatus then
        (⟨some rsp, responseBody, none⟩, w1)
      else if step1 ≥ maxStep then
        (⟨none, none, some "aliAsyncTaskWait timeout"⟩, w1)
      else
        asyncTaskWaitLoop up info taskID step1 (w1.sleep waitSeconds)
termination_by maxStep - step
decreasing_by omega

/-- `asyncTaskWait`. -/
def asyncTaskWait (up : Upstream) (info : RelayInfo) (taskID : String) (w : World) :
    WaitResult × World :=
  asyncTaskWaitLoop up info taskID 0 w

/-- The body of the `range` loop of `responseAli2OpenAIImage`, over the items
still to translate; `acc` is `imageResponse.Data` so far. -/
def translateResults (up : Upstream) (responseFormat : String) :
    List TaskResult → List ImageData → World → List ImageData × World
  | [], acc, w => (acc, w)
  | data :: rest, acc, w =>
    if responseFormat = "b64_json" then
      let w1 := { w with imageFetches := w.imageFetches + 1 }
      match up.getImageFromUrl w.imageFetches data.Url with
      | .error err =>
        translateResults up responseFormat rest acc
          { w1 with logs := w1.logs ++ ["get_image_data_failed: " ++ err] }
      | .ok (_, b64) =>
        translateResults up responseFormat rest
          (acc ++ [{ Url := data.Url, B64Json := b64, RevisedPrompt := "" }]) w1
    else
      translateResults up responseFormat rest
        (acc ++ [{ Url := data.Url, B64Json := data.B64Image, RevisedPrompt := "" }]) w

/-- `responseAli2OpenAIImage`. -/
def responseAli2OpenAIImage (up : Upstream) (response : AliResponse) (info : RelayInfo)
    (responseFormat : String) (w : World) : ImageResponse × World :=
  let w0 := { w with translatorCalls := w.translatorCalls + 1 }
  match translateResults up responseFormat response.Output.Results [] w0 with
  | (data, w1) => ({ Created := info.StartTime, Data := data }, w1)

/-- Modelled from the spec: `dto.Usage` is declared outside the given sources;
the handler only ever returns its zero value. -/
structure Usage where
  TotalTokens : Nat
deriving DecidableEq, Repr, Inhabited

/-- `aliImageHandler`.  A nil response from `asyncTaskWait` only ever comes
with an error (`asyncTaskWaitLoop_frame`), so the dereference after the error
check always has a response and the branch for a nil response with a nil error
is never taken. -/
def aliImageHandler (up : Upstream) (c : Context) (resp : HttpResponse) (info : RelayInfo)
    (w : World) : (Option NewAPIError × Option Usage) × World :=
  let responseFormat := c.response_format
  match resp.Body with
  | .error err => ((some (.NewError err .ReadResponseBodyFailed), none), w)
  | .ok responseBody =>
    match up.unmarshal responseBody with
    | .error err => ((some (.NewError err .BadResponseBody), none), w)
    | .ok aliTaskResponse =>
      if aliTaskResponse.Message ≠ "" then
        ((some (.NewError aliTaskResponse.Message .BadResponse), none),
          { w with logs := w.logs ++ ["ali_async_task_failed: " ++ aliTaskResponse.Message] })
      else
        match asyncTaskWait up info aliTaskResponse.Output.TaskId w with
        | (⟨_, _, some err⟩, w1) => ((some (.NewError err .BadResponse), none), w1)
        | (⟨none, _, none⟩, w1) => ((none, none), w1)
        | (⟨some aliResponse, _, none⟩, w1) =>
          if aliResponse.Output.TaskStatus ≠ "SUCCEEDED" then
            ((some (.WithOpenAIError
                { Message := aliResponse.Output.Message, Type_ := "ali_error", Param := "",
                  Code := aliResponse.Output.Code } resp.StatusCode), none), w1)
          else
            match responseAli2OpenAIImage up aliResponse info responseFormat w1 with
            | (fullTextResponse, w2) =>
              match up.marshal fullTextResponse with
              | .error err => ((some (.NewError err .BadResponseBody), none), w2)
              | .ok jsonResponse =>
                ((none, some default),
                  { w2 with written := w2.written ++
                      [.SetHeader "Content-Type" "application/json",
                       .WriteHeader resp.StatusCode, .Write jsonResponse] })


/-- The world after `m` further polls that each found the task still running:
`m` more fetches, each followed by a sleep of `waitSeconds`. -/
def World.afterPending (w : World) (m : Nat) : World :=
  { w with taskFetches := w.taskFetches + m,
           slept := w.slept ++ List.replicate m waitSeconds }

/-- A fetch that finds the task unfinished: the round trip made after `n`
earlier ones succeeds, decodes, and carries a non-empty status outside the
terminal set. -/
def PendingAt (up : Upstream) (info : RelayInfo) (taskID : String) (n : Nat) : Prop :=
  ∃ body rsp, up.roundTrip n (taskRequest info taskID) = .ok body ∧
    up.unmarshal body = .ok rsp ∧ rsp.Output.TaskStatus ≠ "" ∧
    rsp.Output.TaskStatus ∉ ["SUCCEEDED", "FAILED", "CANCELED", "UNKNOWN"]

/-- A decoded payload that carries only a task status. -/
def statusOnly (status : String) : AliResponse :=
  { Output := { TaskId := "", TaskStatus := status, Message := "", Code := "", Results := [] },
    Message := "", Code := "" }

/-- A scripted upstream: the `n`-th status fetch (from 0) answers with the
`n`-th entry of `statuses` as its body, `RUNNING` beyond the script; a body
decodes to the payload carrying it as status.  Image downloads fail for the
URL `"bad"` and succeed with `"b64:" ++ url` otherwise. -/
def scripted (statuses : List String) : Upstream :=
  { newRequest := fun _ _ => none,
    roundTrip := fun n _ => .ok (statuses.getD n "RUNNING"),
    unmarshal := fun body => .ok (statusOnly body),
    getImageFromUrl := fun _ url =>
      if url = "bad" then .error "download failed" else .ok ("image/png", "b64:" ++ url),
    marshal := fun r => .ok (toString r.Data.length) }

def exampleInfo : RelayInfo :=
  { BaseUrl := "https://dashscope.example", ApiKey := "sk-1", StartTime := 1700000000 }

def emptyWorld : World :=
  { taskFetches := 0, imageFetches := 0, slept := [], logs := [], written := [],
    translatorCalls := 0 }

/-- A vendor answer without a task status but with an error message and code,
as sent when the status request itself is rejected. -/
def rejectedPayload : AliResponse :=
  { Output := { TaskId := "", TaskStatus := "", Message := "", Code := "", Results := [] },
    Message := "Requests rate limit exceeded", Code := "Throttling" }

/-- An upstream whose status fetch answers with `rejectedPayload`. -/
def rejectingUpstream : Upstream :=
  { newRequest := fun _ _ => none,
    roundTrip := fun _ _ => .ok "rejected",
    unmarshal := fun _ => .ok rejectedPayload,
    getImageFromUrl := fun _ _ => .error "unused",
    marshal := fun _ => .ok "" }

/-- A finished task with three result items, the second of which cannot be
downloaded from the scripted upstream. -/
def threeResults : AliResponse :=
  { Output := { TaskId := "t", TaskStatus := "SUCCEEDED", Message := "", Code := "",
                Results := [⟨"u1", "e1"⟩, ⟨"bad", "e2"⟩, ⟨"u3", "e3"⟩] },
    Message := "", Code := "" }

/-- The canonical item made from a vendor item and an encoding. -/
def imageData (d : TaskResult) (b64 : String) : ImageData :=
  { Url := d.Url, B64Json := b64, RevisedPrompt := "" }

/-- The canonical item for the vendor item downloaded as the `i`-th image, if
the download succeeds. -/
def fetchedItem (up : Upstream) (p : Nat × TaskResult) : Option ImageData :=
  match up.getImageFromUrl p.1 p.2.Url with
  | .ok (_, b64) => some (imageData p.2 b64)
  | .error _ => none

end Ali

/-!
# Channel billing: balance probes and the fleet sweep

Shallow embedding of `controller/channel-billing.go`.  `float64` is a type
parameter `F` whose arithmetic is supplied by the environment, so nothing
proved here depends on rounding.  Effects are recorded in a trace of events,
oldest first; the environment may answer a request differently depending on
the trace so far.  A call that panics does not return: functions that can
panic return an `Option`, and `none` is the panic.
-/

namespace Billing

/-- Modelled from the spec: the channel-type constants of package `constant`
are declared outside the given sources; one constructor per constant named in
`updateChannelBalance`, and `Other` for every remaining type tag. -/
inductive ChannelType where
  | OpenAI | Azure | Custom | AIProxy | API2GPT | AIGC2D | SiliconFlow | DeepSeek
  | OpenRouter | Moonshot
  | Other (code : Nat)
deriving DecidableEq, Repr

/-- Modelled from the spec: `model.Channel` is declared outside the given
sources; the fields this file reads or writes.  `IsMultiKey` is
`ChannelInfo.IsMultiKey`, `AutoBan` is what `GetAutoBan()` reports, and a
missing `BaseURL` is Go's nil pointer. -/
structure Channel (F : Type) where
  Id : Int
  Type_ : ChannelType
  Key : String
  Name : String
  BaseURL : Option String
  Status : Int
  IsMultiKey : Bool
  AutoBan : Bool
  Balance : F
deriving DecidableEq, Repr

/-- Modelled from the spec: `Channel.GetBaseURL` is declared outside the given
sources; the configured base URL, empty when none is set. -/
def Channel.GetBaseURL {F : Type} (channel : Channel F) : String :=
  channel.BaseURL.getD ""

/-- Modelled from the spec: `Channel.GetAutoBan` is declared outside the given
sources; the auto-disable-eligibility flag. -/
def Channel.GetAutoBan {F : Type} (channel : Channel F) : Bool :=
  channel.AutoBan

/-- An outgoing request as built by `GetResponseBody`. -/
structure Request where
  Method : String
  Url : String
  Headers : List (String × String)
deriving DecidableEq, Repr

/-- Modelled from the spec: `types.ChannelError` is declared outside the given
sources; the six arguments of `types.NewChannelError`, in order. -/
structure ChannelError where
  ChannelId : Int
  ChannelType : ChannelType
  ChannelName : String
  IsMultiKey : Bool
  UsingKey : String
  AutoBan : Bool
deriving DecidableEq, Repr

def NewChannelError (channelId : Int) (channelType : ChannelType) (channelName : String)
    (isMultiKey : Bool) (usingKey : String) (autoBan : Bool) : ChannelError :=
  { ChannelId := channelId, ChannelType := channelType, ChannelName := channelName,
    IsMultiKey := isMultiKey, UsingKey := usingKey, AutoBan := autoBan }

/-- One observable step.  `probe` is not an effect of its own: it records that
the sweep's call of `updateChannelBalance` on the given channel returned the
given result. -/
inductive Event (F : Type) where
  | httpDo (req : Request)
  | updateBalance (channelId : Int) (balance : F)
  | probe (channel : Channel F) (result : Except String F)
  | disableChannel (err : ChannelError) (reason : String)
  | sleep (interval : Nat)

/-- What `client.Do` and the reading of the body yield. -/
inductive RoundTrip where
  | doError (err : String)
  | response (statusCode : Int) (body : Except String String) (closeErr : Option String)

structure OpenAISubscriptionResponse (F : Type) where
  Object : String
  HasPaymentMethod : Bool
  SoftLimitUSD : F
  HardLimitUSD : F
  SystemHardLimitUSD : F
  AccessUntil : Int

structure OpenAIUsageResponse (F : Type) where
  Object : String
  TotalUsage : F

structure AIProxyUserOverviewResponse (F : Type) where
  Success : Bool
  Message : String
  ErrorCode : Int
  TotalPoints : F

structure API2GPTUsageResponse (F : Type) where
  Object : String
  TotalGranted : F
  TotalUsed : F
  TotalRemaining : F

structure APGC2DGPTUsageResponse (F : Type) where
  Object : String
  TotalAvailable : F
  TotalGranted : F
  TotalUsed : F

/-- Of the `data` object only `totalBalance` is read. -/
structure SiliconFlowUsageResponse where
  Code : Int
  Message : String
  Status : Bool
  TotalBalance : String

structure DeepSeekBalanceInfo where
  Currency : String
  TotalBalance : String
  GrantedBalance : String
  ToppedUpBalance : String
deriving DecidableEq, Repr

structure DeepSeekUsageResponse where
  IsAvailable : Bool
  BalanceInfos : List DeepSeekBalanceInfo

structure OpenRouterCreditResponse (F : Type) where
  TotalCredits : F
  TotalUsage : F

/-- Of the `data` object only `available_balance` is read. -/
structure MoonshotBalanceResponse (F : Type) where
  Code : Int
  AvailableBalance : F
  Scode : String
  Status : Bool

/-- `json.Unmarshal` into each of the response types. -/
structure Json (F : Type) where
  subscription : String → Except String (OpenAISubscriptionResponse F)
  usage : String → Except String (OpenAIUsageResponse F)
  aiProxy : String → Except String (AIProxyUserOverviewResponse F)
  api2gpt : String → Except String (API2GPTUsageResponse F)
  aigc2d : String → Except String (APGC2DGPTUsageResponse F)
  siliconFlow : String → Except String SiliconFlowUsageResponse
  deepSeek : String → Except String DeepSeekUsageResponse
  openRouter : String → Except String (OpenRouterCreditResponse F)
  moonshot : String → Except String (MoonshotBalanceResponse F)

/-- Everything outside this file.  `float64`: the constants 0 and 100, `<=`,
`-`, `/`, `strconv.ParseFloat`, and `decimalDiv a b` for
`decimal.NewFromFloat(a).Div(decimal.NewFromFloat(b)).InexactFloat64()`, which
panics for a zero divisor (and for an operand that is not a finite number):
`none` is that panic.  HTTP: `newRequest` is the error of `http.NewRequest`, if
any, and `roundTrip` the answer to a request given the trace so far.  Time:
`now` is the local calendar day (as a day number) at a point of the trace, so
that `AddDate(0, 0, d)` adds `d`, and `format` is `Time.Format` for a layout.  The remaining fields are the
constants and the store of the other packages. -/
structure Env (F : Type) where
  zero : F
  hundred : F
  le : F → F → Bool
  sub : F → F → F
  div : F → F → F
  parseFloat : String → Except String F
  decimalDiv : F → F → Option F
  newRequest : String → String → Option String
  roundTrip : List (Event F) → Request → RoundTrip
  json : Json F
  now : List (Event F) → Int
  format : String → Int → String
  ChannelBaseURLs : ChannelType → String
  Price : F
  ChannelStatusEnabled : Int
  RequestInterval : Nat
  GetAllChannels : List (Event F) → Except String (List (Channel F))

/-- Modelled from the spec: `Channel.UpdateBalance` is declared outside the
given sources; it writes the value onto the channel record and has no other
effect. -/
def Channel.UpdateBalance {F : Type} (channel : Channel F) (balance : F)
    (tr : List (Event F)) : Channel F × List (Event F) :=
  ({ channel with Balance := balance }, tr ++ [.updateBalance channel.Id balance])

/-- `GetAuthHeader`. -/
def GetAuthHeader (token : String) : List (String × String) :=
  [("Authorization", "Bearer " ++ token)]

/-- `GetResponseBody`. -/
def GetResponseBody {F : Type} (env : Env F) (method url : String) (_channel : Channel F)
    (headers : List (String × String)) (tr : List (Event F)) :
    Except String String × List (Event F) :=
  match env.newRequest method url with
  | some err => (.error err, tr)
  | none =>
    let req : Request := { Method := method, Url := url, Headers := headers }
    let tr1 := tr ++ [.httpDo req]
    match env.roundTrip tr req with
    | .doError err => (.error err, tr1)
    | .response statusCode body closeErr =>
      if statusCode ≠ 200 then (.error ("status code: " ++ toString statusCode), tr1)
      else
        match body with
        | .error err => (.error err, tr1)
        | .ok body =>
          match closeErr with
          | some err => (.error err, tr1)
          | none => (.ok body, tr1)

/-- `updateChannelAIProxyBalance`. -/
def updateChannelAIProxyBalance {F : Type} (env : Env F) (channel : Channel F)
    (tr : List (Event F)) : Except String F × Channel F × List (Event F) :=
  let url := "https://aiproxy.io/api/report/getUserOverview"
  let headers := [("Api-Key", channel.Key)]
  match GetResponseBody env "GET" url channel headers tr with
  | (.error err, tr1) => (.error err, channel, tr1)
  | (.ok body, tr1) =>
    match env.json.aiProxy body with
    | .error err => (.error err, channel, tr1)
    | .ok response =>
      if !response.Success then
        (.error ("code: " ++ toString response.ErrorCode ++ ", message: " ++ response.Message),
          channel, tr1)
      else
        match channel.UpdateBalance response.TotalPoints tr1 with
        | (channel1, tr2) => (.ok response.TotalPoints, channel1, tr2)

/-- `updateChannelAPI2GPTBalance`. -/
def updateChannelAPI2GPTBalance {F : Type} (env : Env F) (channel : Channel F)
    (tr : List (Event F)) : Except String F × Channel F × List (Event F) :=
  let url := "https://api.api2gpt.com/dashboard/billing/credit_grants"
  match GetResponseBody env "GET" url channel (GetAuthHeader channel.Key) tr with
  | (.error err, tr1) => (.error err, channel, tr1)
  | (.ok body, tr1) =>
    match env.json.api2gpt body with
    | .error err => (.error err, channel, tr1)
    | .ok response =>
      match channel.UpdateBalance response.TotalRemaining tr1 with
      | (channel1, tr2) => (.ok response.TotalRemaining, channel1, tr2)

/-- `updateChannelSiliconFlowBalance`. -/
def updateChannelSiliconFlowBalance {F : Type} (env : Env F) (channel : Channel F)
    (tr : List (Event F)) : Except String F × Channel F × List (Event F) :=
  let url := "https://api.siliconflow.cn/v1/user/info"
  match GetResponseBody env "GET" url channel (GetAuthHeader channel.Key) tr with
  | (.error err, tr1) => (.error err, channel, tr1)
  | (.ok body, tr1) =>
    match env.json.siliconFlow body with
    | .error err => (.error err, channel, tr1)
    | .ok response =>
      if response.Code ≠ 20000 then
        (.error ("code: " ++ toString response.Code ++ ", message: " ++ response.Message),
          channel, tr1)
      else
        match env.parseFloat response.TotalBalance with
        | .error err => (.error err, channel, tr1)
        | .ok balance =>
          match channel.UpdateBalance balance tr1 with
          | (channel1, tr2) => (.ok balance, channel1, tr2)

/-- `updateChannelDeepSeekBalance`.  The index loop followed by the indexed
read is the first entry whose currency is `CNY`, if there is one. -/
def updateChannelDeepSeekBalance {F : Type} (env : Env F) (channel : Channel F)
    (tr : List (Event F)) : Except String F × Channel F × List (Event F) :=
  let url := "https://api.deepseek.com/user/balance"
  match GetResponseBody env "GET" url channel (GetAuthHeader channel.Key) tr with
  | (.error err, tr1) => (.error err, channel, tr1)
  | (.ok body, tr1) =>
    match env.json.deepSeek body with
    | .error err => (.error err, channel, tr1)
    | .ok response =>
      match response.BalanceInfos.find? (fun balanceInfo => balanceInfo.Currency = "CNY") with
      | none => (.error "currency CNY not found", channel, tr1)
      | some balanceInfo =>
        match env.parseFloat balanceInfo.TotalBalance with
        | .error err => (.error err, channel, tr1)
        | .ok balance =>
          match channel.UpdateBalance balance tr1 with
          | (channel1, tr2) => (.ok balance, channel1, tr2)

/-- `updateChannelAIGC2DBalance`. -/
def updateChannelAIGC2DBalance {F : Type} (env : Env F) (channel : Channel F)
    (tr : List (Event F)) : Except String F × Channel F × List (Event F) :=
  let url := "https://api.aigc2d.com/dashboard/billing/credit_grants"
  match GetResponseBody env "GET" url channel (GetAuthHeader channel.Key) tr with
  | (.error err, tr1) => (.error err, channel, tr1)
  | (.ok body, tr1) =>
    match env.json.aigc2d body with
    | .error err => (.error err, channel, tr1)
    | .ok response =>
      match channel.UpdateBalance response.TotalAvailable tr1 with
      | (channel1, tr2) => (.ok response.TotalAvailable, channel1, tr2)

/-- `updateChannelOpenRouterBalance`. -/
def updateChannelOpenRouterBalance {F : Type} (env : Env F) (channel : Channel F)
    (tr : List (Event F)) : Except String F × Channel F × List (Event F) :=
  let url := "https://openrouter.ai/api/v1/credits"
  match GetResponseBody env "GET" url channel (GetAuthHeader channel.Key) tr with
  | (.error err, tr1) => (.error err, channel, tr1)
  | (.ok body, tr1) =>
    match env.json.openRouter body with
    | .error err => (.error err, channel, tr1)
    | .ok response =>
      let balance := env.sub response.TotalCredits response.TotalUsage
      match channel.UpdateBalance balance tr1 with
      | (channel1, tr2) => (.ok balance, channel1, tr2)

/-- `updateChannelMoonshotBalance`.  The decimal division panics when the
configured price is zero; the call then does not return (`none`). -/
def updateChannelMoonshotBalance {F : Type} (env : Env F) (channel : Channel F)
    (tr : List (Event F)) : Option (Except String F × Channel F × List (Event F)) :=
  let url := "https://api.moonshot.cn/v1/users/me/balance"
  match GetResponseBody env "GET" url channel (GetAuthHeader channel.Key) tr with
  | (.error err, tr1) => some (.error err, channel, tr1)
  | (.ok body, tr1) =>
    match env.json.moonshot body with
    | .error err => some (.error err, channel, tr1)
    | .ok response =>
      if !response.Status || response.Code ≠ 0 then
        some (.error ("failed to update moonshot balance, status: " ++ toString response.Status
            ++ ", code: " ++ toString response.Code ++ ", scode: " ++ response.Scode),
          channel, tr1)
      else
        let availableBalanceCny := response.AvailableBalance
        match env.decimalDiv availableBalanceCny env.Price with
        | none => none
        | some availableBalanceUsd =>
          match channel.UpdateBalance availableBalanceUsd tr1 with
          | (channel1, tr2) => some (.ok availableBalanceUsd, channel1, tr2)

/-- The part of `updateChannelBalance` after the `switch`: the subscription
fetch, the usage fetch over the date window, and the balance. -/
def updateChannelSubscriptionBalance {F : Type} (env : Env F) (baseURL : String)
    (channel : Channel F) (tr : List (Event F)) :
    Except String F × Channel F × List (Event F) :=
  let url := baseURL ++ "/v1/dashboard/billing/subscription"
  match GetResponseBody env "GET" url channel (GetAuthHeader channel.Key) tr with
  | (.error err, tr1) => (.error err, channel, tr1)
  | (.ok body, tr1) =>
    match env.json.subscription body with
    | .error err => (.error err, channel, tr1)
    | .ok subscription =>
      let now := env.now tr1
      let startDate := env.format "2006-01" now ++ "-01"
      let endDate := env.format "2006-01-02" now
      let startDate :=
        if !subscription.HasPaymentMethod then env.format "2006-01-02" (now + (-100))
        else startDate
      let url := baseURL ++ "/v1/dashboard/billing/usage?start_date=" ++ startDate
        ++ "&end_date=" ++ endDate
      match GetResponseBody env "GET" url channel (GetAuthHeader channel.Key) tr1 with
      | (.error err, tr2) => (.error err, channel, tr2)
      | (.ok body, tr2) =>
        match env.json.usage body with
        | .error err => (.error err, channel, tr2)
        | .ok usage =>
          let balance := env.sub subscription.HardLimitUSD (env.div usage.TotalUsage env.hundred)
          match channel.UpdateBalance balance tr2 with
          | (channel1, tr3) => (.ok balance, channel1, tr3)

/-- `updateChannelBalance`.  The result of a call that returns is the returned
pair (an error, or the balance with a nil error), the channel record after the
call, and the trace; `none` is a call that panics. -/
def updateChannelBalance {F : Type} (env : Env F) (channel0 : Channel F)
    (tr : List (Event F)) : Option (Except String F × Channel F × List (Event F)) :=
  let baseURL := env.ChannelBaseURLs channel0.Type_
  let channel :=
    if channel0.GetBaseURL = "" then { channel0 with BaseURL := some baseURL } else channel0
  match channel.Type_ with
  | .OpenAI =>
    let baseURL := if channel.GetBaseURL ≠ "" then channel.GetBaseURL else baseURL
    some (updateChannelSubscriptionBalance env baseURL channel tr)
  | .Azure => some (.error "尚未实现", channel, tr)
  | .Custom =>
    let baseURL := channel.GetBaseURL
    some (updateChannelSubscriptionBalance env baseURL channel tr)
  | .AIProxy => some (updateChannelAIProxyBalance env channel tr)
  | .API2GPT => some (updateChannelAPI2GPTBalance env channel tr)
  | .AIGC2D => some (updateChannelAIGC2DBalance env channel tr)
  | .SiliconFlow => some (updateChannelSiliconFlowBalance env channel tr)
  | .DeepSeek => some (updateChannelDeepSeekBalance env channel tr)
  | .OpenRouter => some (updateChannelOpenRouterBalance env channel tr)
  | .Moonshot => updateChannelMoonshotBalance env channel tr
  | .Other _ => some (.error "尚未实现", channel, tr)

/-- The `range` loop of `updateAllChannelsBalance` over the channels still to
visit; `none` when a probe panics, which ends the run. -/
def sweepChannels {F : Type} (env : Env F) :
    List (Channel F) → List (Event F) → Option (List (Event F))
  | [], tr => some tr
  | channel :: rest, tr =>
    if channel.Status ≠ env.ChannelStatusEnabled then sweepChannels env rest tr
    else if channel.IsMultiKey then sweepChannels env rest tr
    else
      match updateChannelBalance env channel tr with
      | none => none
      | some (result, channel1, tr1) =>
        let tr2 := tr1 ++ [.probe channel result]
        match result with
        | .error _ => sweepChannels env rest tr2
        | .ok balance =>
          let tr3 :=
            if env.le balance env.zero then
              tr2 ++ [.disableChannel
                (NewChannelError channel1.Id channel1.Type_ channel1.Name channel1.IsMultiKey ""
                  channel1.GetAutoBan) "余额不足"]
            else tr2
          sweepChannels env rest (tr3 ++ [.sleep env.RequestInterval])

/-- `updateAllChannelsBalance`: for a run that returns, the returned error
(`none` is nil) and the trace; `none` for a run ended by a panic. -/
def updateAllChannelsBalance {F : Type} (env : Env F) (tr : List (Event F)) :
    Option (Option String × List (Event F)) :=
  match env.GetAllChannels tr with
  | .error err => some (some err, tr)
  | .ok channels =>
    match sweepChannels env channels tr with
    | none => none
    | some tr1 => some (none, tr1)


/-- The channels the sweep does not skip: enabled and not multi-key. -/
def eligible {F : Type} (env : Env F) (channel : Channel F) : Bool :=
  decide (channel.Status = env.ChannelStatusEnabled) && !channel.IsMultiKey

/-- The probes recorded in a trace, in order, each with its result. -/
def probeResults {F : Type} : List (Event F) → List (Channel F × Except String F)
  | [] => []
  | .probe channel result :: rest => (channel, result) :: probeResults rest
  | _ :: rest => probeResults rest

/-- The calls of the disable operation recorded in a trace, in order. -/
def disables {F : Type} : List (Event F) → List (ChannelError × String)
  | [] => []
  | .disableChannel err reason :: rest => (err, reason) :: disables rest
  | _ :: rest => disables rest

/-- The calls of `UpdateBalance` recorded in a trace, in order. -/
def balanceUpdates {F : Type} : List (Event F) → List (Int × F)
  | [] => []
  | .updateBalance channelId balance :: rest => (channelId, balance) :: balanceUpdates rest
  | _ :: rest => balanceUpdates rest

/-- The requests sent in a trace, in order. -/
def requests {F : Type} : List (Event F) → List Request
  | [] => []
  | .httpDo req :: rest => req :: requests rest
  | _ :: rest => requests rest

/-- The channel as `updateChannelBalance` sees it after its first statement: an
empty base URL is replaced by the default of the channel's type. -/
def withDefaultBaseURL {F : Type} (env : Env F) (channel : Channel F) : Channel F :=
  if channel.GetBaseURL = "" then
    { channel with BaseURL := some (env.ChannelBaseURLs channel.Type_) }
  else channel

/-- The start of the usage window requested for a subscription on day `now`. -/
def usageStartDate {F : Type} (env : Env F) (hasPaymentMethod : Bool) (now : Int) : String :=
  if hasPaymentMethod then env.format "2006-01" now ++ "-01"
  else env.format "2006-01-02" (now - 100)

/-- Decoders that reject every body. -/
def noJson (F : Type) : Json F :=
  { subscription := fun _ => .error "unexpected end of JSON input",
    usage := fun _ => .error "unexpected end of JSON input",
    aiProxy := fun _ => .error "unexpected end of JSON input",
    api2gpt := fun _ => .error "unexpected end of JSON input",
    aigc2d := fun _ => .error "unexpected end of JSON input",
    siliconFlow := fun _ => .error "unexpected end of JSON input",
    deepSeek := fun _ => .error "unexpected end of JSON input",
    openRouter := fun _ => .error "unexpected end of JSON input",
    moonshot := fun _ => .error "unexpected end of JSON input" }

/-- An environment over the rationals, with exact arithmetic and a decimal
division that panics on a zero divisor, in which every request is answered
`200` with the body `"{}"`, no body decodes, and the store is empty. -/
def exactEnv : Env ℚ :=
  { zero := 0, hundred := 100, le := fun a b => decide (a ≤ b), sub := fun a b => a - b,
    div := fun a b => a / b, parseFloat := fun _ => .error "invalid syntax",
    decimalDiv := fun a b => if b = 0 then none else some (a / b),
    newRequest := fun _ _ => none,
    roundTrip := fun _ _ => .response 200 (.ok "{}") none,
    json := noJson ℚ,
    now := fun _ => 19800, format := fun layout day => layout ++ "@" ++ toString day,
    ChannelBaseURLs := fun _ => "https://api.openai.com",
    Price := 7, ChannelStatusEnabled := 1, RequestInterval := 5,
    GetAllChannels := fun _ => .ok [] }

/-- An enabled single-key channel of the given type. -/
def exampleChannel (id : Int) (type : ChannelType) : Channel ℚ :=
  { Id := id, Type_ := type, Key := "sk-1", Name := "c", BaseURL := none, Status := 1,
    IsMultiKey := false, AutoBan := true, Balance := 42 }

/-- The DeepSeek payload with a single `USD` row. -/
def usdOnly : DeepSeekUsageResponse :=
  { IsAvailable := true,
    BalanceInfos := [{ Currency := "USD", TotalBalance := "10.00", GrantedBalance := "0.00",
                       ToppedUpBalance := "10.00" }] }

/-- An environment whose DeepSeek endpoint answers with `usdOnly`. -/
def usdOnlyEnv : Env ℚ :=
  { exactEnv with json := { noJson ℚ with deepSeek := fun _ => .ok usdOnly } }

/-- An environment in which every request is answered with status 500, and the
store holds two enabled single-key OpenAI channels. -/
def failingEnv : Env ℚ :=
  { exactEnv with
    roundTrip := fun _ _ => .response 500 (.ok "") none,
    GetAllChannels := fun _ => .ok [exampleChannel 1 .OpenAI, exampleChannel 2 .OpenAI] }

/-- An environment whose subscription endpoint reports a hard limit of 100 with
a payment method on file and whose usage endpoint reports 2500 cents. -/
def openAIEnv : Env ℚ :=
  { exactEnv with
    json := { noJson ℚ with
      subscription := fun _ => .ok
        { Object := "billing_subscription", HasPaymentMethod := true, SoftLimitUSD := 80,
          HardLimitUSD := 100, SystemHardLimitUSD := 120, AccessUntil := 0 },
      usage := fun _ => .ok { Object := "list", TotalUsage := 2500 } } }

/-- The channels of `mixedEnv`: a disabled channel, a multi-key channel, and two
enabled single-key channels. -/
def mixedChannels : List (Channel ℚ) :=
  [{ exampleChannel 1 .OpenAI with Status := 2 },
   { exampleChannel 2 .OpenAI with IsMultiKey := true },
   exampleChannel 3 .AIGC2D,
   exampleChannel 4 .Azure]

/-- A store holding `mixedChannels`; no body decodes, so the probe of channel 3
sends its request and fails. -/
def mixedEnv : Env ℚ :=
  { exactEnv with GetAllChannels := fun _ => .ok mixedChannels }


/-- The effect of a probe called on `channel` from trace `tr`: it sends some
requests; when it returns an error the record is as it was and nothing else
happened; when it returns a balance that balance was written onto the record,
once, after the requests. -/
def ProbeSpec {F : Type} (channel : Channel F) (tr : List (Event F))
    (out : Except String F × Channel F × List (Event F)) : Prop :=
  ∃ reqs : List Request,
    match out.1 with
    | .error _ => out.2.1 = channel ∧ out.2.2 = tr ++ reqs.map .httpDo
    | .ok balance =>
      out.2.1 = { channel with Balance := balance } ∧
      out.2.2 = tr ++ reqs.map .httpDo ++ [.updateBalance channel.Id balance]


/-- The disable call for a channel: its id, type, name, multi-key flag and
auto-ban flag, with the reason given by the sweep. -/
def disableCall {F : Type} (channel : Channel F) : ChannelError × String :=
  (NewChannelError channel.Id channel.Type_ channel.Name channel.IsMultiKey ""
    channel.GetAutoBan, "余额不足")

/-- The request sent for the subscription of an example channel. -/
def subscriptionRequest : Request :=
  { Method := "GET", Url := "https://api.openai.com/v1/dashboard/billing/subscription",
    Headers := [("Authorization", "Bearer sk-1")] }


/-- The channels of `depletedEnv`. -/
def depletedChannels : List (Channel ℚ) :=
  [exampleChannel 1 .AIGC2D, exampleChannel 2 .Azure]

/-- A store with a channel whose vendor reports no credit left and a channel
of a type without a probe. -/
def depletedEnv : Env ℚ :=
  { exactEnv with
    json := { noJson ℚ with
      aigc2d := fun _ => .ok
        { Object := "credit_summary", TotalAvailable := 0, TotalGranted := 5, TotalUsed := 5 } },
    GetAllChannels := fun _ => .ok depletedChannels }

/-- The base URL `updateChannelBalance` uses for the subscription and usage
requests of an OpenAI or custom channel. -/
def billingBaseURL {F : Type} (env : Env F) (channel : Channel F) : String :=
  (withDefaultBaseURL env channel).GetBaseURL

/-- What the sweep does, as far as probing goes, with one channel of the list
met at trace `t`, where `seg` is what the visit adds to the trace.  A channel
that is disabled or multi-key adds nothing.  Otherwise `updateChannelBalance`
is called on it at `t` and returns `out`; the trace after the visit is the
trace that call returned, the record of the call with its result, and a rest
in which no further probe is recorded and no request or balance write made. -/
def ProbedOnce {F : Type} (env : Env F) (channel : Channel F) (t seg : List (Event F)) :
    Prop :=
  if eligible env channel = true then
    ∃ out after, updateChannelBalance env channel t = some out ∧
      t ++ seg = out.2.2 ++ [.probe channel out.1] ++ after ∧
      probeResults after = [] ∧ requests after = [] ∧ balanceUpdates after = []
  else seg = []

/-- The disable calls due for a channel whose probe returned `result`: one
call, with the channel's id and auto-ban flag and the reason "余额不足", when
the probe returned a balance `<= 0` with a nil error; none when the balance is
not `<= 0` or the probe returned an error. -/
def disablesDue {F : Type} (env : Env F) (channel : Channel F) (result : Except String F) :
    List (ChannelError × String) :=
  match result with
  | .ok balance => if env.le balance env.zero then [disableCall channel] else []
  | .error _ => []

/-- What the sweep does, as far as disabling goes, with one channel of the list
met at trace `t`, where `seg` is what the visit adds to the trace.  A channel
that is skipped adds nothing, so no disable call.  Otherwise
`updateChannelBalance` is called on it at `t` and returns `out`, the trace
after the visit starts with the trace that call returned followed by the
record of the call, and the disable calls of the visit are those due for the
result of that call. -/
def DisabledIfDepleted {F : Type} (env : Env F) (channel : Channel F)
    (t seg : List (Event F)) : Prop :=
  if eligible env channel = true then
    ∃ out after, updateChannelBalance env channel t = some out ∧
      t ++ seg = out.2.2 ++ [.probe channel out.1] ++ after ∧
      disables seg = disablesDue env channel out.1
  else seg = []

/-- The exchange rate is zero, and the store holds a Moonshot channel followed
by an OpenAI channel; the Moonshot endpoint reports a balance of 70. -/
def zeroPriceEnv : Env ℚ :=
  { exactEnv with
    Price := 0,
    json := { noJson ℚ with
      moonshot := fun _ => .ok { Code := 0, AvailableBalance := 70, Scode := "0x0",
                                 Status := true } },
    GetAllChannels := fun _ => .ok [exampleChannel 1 .Moonshot, exampleChannel 2 .OpenAI] }

end Billing

namespace Ali

theorem isTerminalStatus_eq_false {s : String}
    (h : s ∉ ["SUCCEEDED", "FAILED", "CANCELED", "UNKNOWN"]) : isTerminalStatus s = false := by
  simp only [List.mem_cons, List.mem_singleton, List.not_mem_nil, or_false, not_or] at h
  simp [isTerminalStatus, h.1, h.2.1, h.2.2.1, h.2.2.2]

theorem isTerminalStatus_eq_true {s : String}
    (h : s ∈ ["SUCCEEDED", "FAILED", "CANCELED", "UNKNOWN"]) : isTerminalStatus s = true := by
  simp only [List.mem_cons, List.mem_singleton, List.not_mem_nil, or_false] at h
  rcases h with h | h | h | h <;> subst h <;> decide

theorem terminal_ne_empty {s : String}
    (h : s ∈ ["SUCCEEDED", "FAILED", "CANCELED", "UNKNOWN"]) : s ≠ "" := by
  simp only [List.mem_cons, List.mem_singleton, List.not_mem_nil, or_false] at h
  rcases h with h | h | h | h <;> subst h <;> decide

/-- A fetch that reaches the upstream and decodes returns the decoded payload
and the raw body, and counts as one round trip. -/
theorem updateTask_ok (up : Upstream) (info : RelayInfo) (taskID : String) (w : World)
    (body : String) (rsp : AliResponse)
    (hreq : up.newRequest "GET" (taskRequest info taskID).Url = none)
    (hrt : up.roundTrip w.taskFetches (taskRequest info taskID) = .ok body)
    (hdec : up.unmarshal body = .ok rsp) :
    updateTask up info taskID w
      = ((rsp, none, some body), { w with taskFetches := w.taskFetches + 1 }) := by
  simp only [taskRequest] at hreq
  simp [updateTask, hreq, hrt, hdec]

/-- One pass of the loop on a fetch with a terminal status. -/
theorem asyncTaskWaitLoop_terminal (up : Upstream) (info : RelayInfo) (taskID : String)
    (step : Nat) (w : World) (body : String) (rsp : AliResponse)
    (hreq : up.newRequest "GET" (taskRequest info taskID).Url = none)
    (hrt : up.roundTrip w.taskFetches (taskRequest info taskID) = .ok body)
    (hdec : up.unmarshal body = .ok rsp)
    (hst : rsp.Output.TaskStatus ∈ ["SUCCEEDED", "FAILED", "CANCELED", "UNKNOWN"]) :
    asyncTaskWaitLoop up info taskID step w
      = (⟨some rsp, some body, none⟩, { w with taskFetches := w.taskFetches + 1 }) := by
  rw [asyncTaskWaitLoop, updateTask_ok up info taskID w body rsp hreq hrt hdec]
  simp [terminal_ne_empty hst, isTerminalStatus_eq_true hst]

/-- One pass of the loop on a fetch without a task status. -/
theorem asyncTaskWaitLoop_empty (up : Upstream) (info : RelayInfo) (taskID : String)
    (step : Nat) (w : World) (body : String) (rsp : AliResponse)
    (hreq : up.newRequest "GET" (taskRequest info taskID).Url = none)
    (hrt : up.roundTrip w.taskFetches (taskRequest info taskID) = .ok body)
    (hdec : up.unmarshal body = .ok rsp)
    (hst : rsp.Output.TaskStatus = "") :
    asyncTaskWaitLoop up info taskID step w
      = (⟨some default, some body, none⟩, { w with taskFetches := w.taskFetches + 1 }) := by
  rw [asyncTaskWaitLoop, updateTask_ok up info taskID w body rsp hreq hrt hdec]
  simp [hst]

/-- One pass of the loop on an unfinished task at the attempt cap. -/
theorem asyncTaskWaitLoop_cap (up : Upstream) (info : RelayInfo) (taskID : String)
    (step : Nat) (w : World)
    (hreq : up.newRequest "GET" (taskRequest info taskID).Url = none)
    (hp : PendingAt up info taskID w.taskFetches) (hstep : maxStep ≤ step + 1) :
    asyncTaskWaitLoop up info taskID step w
      = (⟨none, none, some "aliAsyncTaskWait timeout"⟩,
          { w with taskFetches := w.taskFetches + 1 }) := by
  obtain ⟨body, rsp, hrt, hdec, hne, hnt⟩ := hp
  rw [asyncTaskWaitLoop, updateTask_ok up info taskID w body rsp hreq hrt hdec]
  simp [hne, isTerminalStatus_eq_false hnt, hstep]

/-- One pass of the loop on an unfinished task below the cap: sleep and go on. -/
theorem asyncTaskWaitLoop_step (up : Upstream) (info : RelayInfo) (taskID : String)
    (step : Nat) (w : World)
    (hreq : up.newRequest "GET" (taskRequest info taskID).Url = none)
    (hp : PendingAt up info taskID w.taskFetches) (hstep : step + 1 < maxStep) :
    asyncTaskWaitLoop up info taskID step w
      = asyncTaskWaitLoop up info taskID (step + 1) (w.afterPending 1) := by
  obtain ⟨body, rsp, hrt, hdec, hne, hnt⟩ := hp
  rw [asyncTaskWaitLoop, updateTask_ok up info taskID w body rsp hreq hrt hdec]
  have : ¬ maxStep ≤ step + 1 := by omega
  simp only [hne, isTerminalStatus_eq_false hnt, ge_iff_le, this, if_false, Bool.false_eq_true]
  rfl

theorem afterPending_afterPending (w : World) (a b : Nat) :
    (w.afterPending a).afterPending b = w.afterPending (a + b) := by
  simp only [World.afterPending, Nat.add_assoc, List.append_assoc, List.replicate_add]

/-- After `m` unfinished fetches below the cap the loop stands `m` steps on. -/
theorem asyncTaskWaitLoop_pending (up : Upstream) (info : RelayInfo) (taskID : String)
    (hreq : up.newRequest "GET" (taskRequest info taskID).Url = none) :
    ∀ (m step : Nat) (w : World), step + m < maxStep →
      (∀ j, j < m → PendingAt up info taskID (w.taskFetches + j)) →
      asyncTaskWaitLoop up info taskID step w
        = asyncTaskWaitLoop up info taskID (step + m) (w.afterPending m) := by
  intro m
  induction m with
  | zero =>
    intro step w _ _
    simp [World.afterPending]
  | succ m ih =>
    intro step w hlt hp
    have h0 : PendingAt up info taskID w.taskFetches := by simpa using hp 0 (Nat.succ_pos m)
    rw [asyncTaskWaitLoop_step up info taskID step w hreq h0 (by omega)]
    rw [ih (step + 1) (w.afterPending 1) (by omega)]
    · rw [afterPending_afterPending]
      have e1 : step + 1 + m = step + (m + 1) := by omega
      have e2 : 1 + m = m + 1 := by omega
      rw [e1, e2]
    · intro j hj
      have := hp (j + 1) (by omega)
      have e : (w.afterPending 1).taskFetches + j = w.taskFetches + (j + 1) := by
        simp [World.afterPending]; omega
      rw [e]; exact this


theorem updateTask_frame (up : Upstream) (info : RelayInfo) (taskID : String) (w : World) :
    (updateTask up info taskID w).2.written = w.written ∧
    (updateTask up info taskID w).2.translatorCalls = w.translatorCalls ∧
    (updateTask up info taskID w).2.imageFetches = w.imageFetches := by
  simp only [updateTask]
  rcases h1 : up.newRequest "GET" (info.BaseUrl ++ "/api/v1/tasks/" ++ taskID) with _ | e
  · rcases h2 : up.roundTrip w.taskFetches (taskRequest info taskID) with e | body
    · simp [World.sysError]
    · rcases h3 : up.unmarshal body with e | r <;> simp [h3, World.sysError]
  · simp

/-- Polling neither writes to the caller nor touches the translator, and a
missing response always comes with an error. -/
theorem asyncTaskWaitLoop_frame (up : Upstream) (info : RelayInfo) (taskID : String) :
    ∀ (n step : Nat) (w : World), maxStep - step = n →
      (asyncTaskWaitLoop up info taskID step w).2.written = w.written ∧
      (asyncTaskWaitLoop up info taskID step w).2.translatorCalls = w.translatorCalls ∧
      (asyncTaskWaitLoop up info taskID step w).2.imageFetches = w.imageFetches ∧
      ((asyncTaskWaitLoop up info taskID step w).1.response = none →
        (asyncTaskWaitLoop up info taskID step w).1.err ≠ none) := by
  intro n
  induction n using Nat.strong_induction_on with
  | _ n ih =>
    intro step w hn
    have hf := updateTask_frame up info taskID w
    rw [asyncTaskWaitLoop]
    rcases hu : updateTask up info taskID w with ⟨⟨rsp, err, body⟩, w1⟩
    rw [hu] at hf
    cases err with
    | some e => simpa using hf
    | none =>
      by_cases h1 : rsp.Output.TaskStatus = ""
      · simpa [h1] using hf
      · by_cases h2 : isTerminalStatus rsp.Output.TaskStatus = true
        · simpa [h1, h2] using hf
        · by_cases hcap : maxStep ≤ step + 1
          · simpa [h1, h2, hcap] using hf
          · have hrec := ih (maxStep - (step + 1)) (by omega) (step + 1)
              (w1.sleep waitSeconds) rfl
            simp only [World.sleep] at hrec hf
            simp only [h1, h2, hcap, ge_iff_le, if_false, World.sleep]
            refine ⟨hrec.1.trans hf.1, hrec.2.1.trans hf.2.1, hrec.2.2.1.trans hf.2.2,
              hrec.2.2.2⟩

theorem translateResults_plain (up : Upstream) (responseFormat : String)
    (h : responseFormat ≠ "b64_json") :
    ∀ (results : List TaskResult) (acc : List ImageData) (w : World),
      translateResults up responseFormat results acc w
        = (acc ++ results.map (fun d => imageData d d.B64Image), w) := by
  intro results
  induction results with
  | nil => intro acc w; simp [translateResults]
  | cons d rest ih =>
    intro acc w
    simp [translateResults, h, ih, imageData]

theorem translateResults_b64 (up : Upstream) :
    ∀ (results : List TaskResult) (acc : List ImageData) (w : World),
      (translateResults up "b64_json" results acc w).1
          = acc ++ (results.enumFrom w.imageFetches).filterMap (fetchedItem up) ∧
      (translateResults up "b64_json" results acc w).2.imageFetches
          = w.imageFetches + results.length := by
  intro results
  induction results with
  | nil => intro acc w; simp [translateResults]
  | cons d rest ih =>
    intro acc w
    rw [translateResults]
    simp only [if_true, List.enumFrom_cons, List.length_cons]
    rcases hf : up.getImageFromUrl w.imageFetches d.Url with e | ⟨mime, b64⟩
    · obtain ⟨h1, h2⟩ := ih acc
        { taskFetches := w.taskFetches, imageFetches := w.imageFetches + 1, slept := w.slept,
          logs := w.logs ++ ["get_image_data_failed: " ++ e], written := w.written,
          translatorCalls := w.translatorCalls }
      simp only [List.filterMap_cons, fetchedItem, hf]
      refine ⟨h1, ?_⟩
      rw [h2]; simp only []; omega
    · obtain ⟨h1, h2⟩ := ih (acc ++ [{ Url := d.Url, B64Json := b64, RevisedPrompt := "" }])
        { w with imageFetches := w.imageFetches + 1 }
      simp only [List.filterMap_cons, fetchedItem, hf]
      refine ⟨?_, ?_⟩
      · rw [h1]; simp [imageData]
      · rw [h2]; simp only []; omega

/-- When every download succeeds, every item is kept. -/
theorem fetched_all (up : Upstream) :
    ∀ (l : List TaskResult) (n : Nat),
      (∀ j (hj : j < l.length), ∃ mime b64,
          up.getImageFromUrl (n + j) (l[j]).Url = .ok (mime, b64)) →
      ((l.enumFrom n).filterMap (fetchedItem up)).map (fun x => x.Url) = l.map (fun d => d.Url) := by
  intro l
  induction l with
  | nil => intro n _; rfl
  | cons d rest ih =>
    intro n h
    obtain ⟨mime, b64, h0⟩ := h 0 (by simp)
    simp only [Nat.add_zero, List.getElem_cons_zero] at h0
    simp only [List.enumFrom_cons, List.filterMap_cons, fetchedItem, h0, List.map_cons, imageData]
    congr 1
    apply ih (n + 1)
    intro j hj
    have := h (j + 1) (by simpa using hj)
    simpa [Nat.add_assoc, Nat.add_comm 1 j] using this

/-- When exactly the download of item `i` fails, exactly item `i` is dropped. -/
theorem fetched_all_but_one (up : Upstream) :
    ∀ (l : List TaskResult) (n i : Nat) (hi : i < l.length),
      (∃ e, up.getImageFromUrl (n + i) (l[i]).Url = .error e) →
      (∀ j (hj : j < l.length), j ≠ i → ∃ mime b64,
          up.getImageFromUrl (n + j) (l[j]).Url = .ok (mime, b64)) →
      ((l.enumFrom n).filterMap (fetchedItem up)).map (fun x => x.Url)
        = (l.eraseIdx i).map (fun d => d.Url) := by
  intro l
  induction l with
  | nil => intro n i hi; simp at hi
  | cons d rest ih =>
    intro n i hi hfail hok
    cases i with
    | zero =>
      obtain ⟨e, he⟩ := hfail
      simp only [Nat.add_zero, List.getElem_cons_zero] at he
      simp only [List.enumFrom_cons, List.filterMap_cons, fetchedItem, he, List.eraseIdx_cons_zero]
      apply fetched_all up rest (n + 1)
      intro j hj
      have := hok (j + 1) (by simpa using hj) (by omega)
      simpa [Nat.add_assoc, Nat.add_comm 1 j] using this
    | succ i =>
      obtain ⟨mime, b64, h0⟩ := hok 0 (by simp) (by omega)
      simp only [Nat.add_zero, List.getElem_cons_zero] at h0
      simp only [List.enumFrom_cons, List.filterMap_cons, fetchedItem, h0, List.map_cons, imageData,
        List.eraseIdx_cons_succ]
      congr 1
      have hi2 : i < rest.length := by simpa using hi
      apply ih (n + 1) i hi2
      · obtain ⟨e, he⟩ := hfail
        refine ⟨e, ?_⟩
        simpa [Nat.add_assoc, Nat.add_comm 1 i] using he
      · intro j hj hne
        have := hok (j + 1) (by simpa using hj) (by omega)
        simpa [Nat.add_assoc, Nat.add_comm 1 j] using this


/-- C1: when each of the first 20 status fetches succeeds with a non-empty,
non-terminal status, `asyncTaskWait` makes exactly 20 fetches (19 sleeps in
between, no 21st fetch) and returns the timeout error with no response and no
body; a run whose first fetch reports `FAILED` instead returns that response
with a nil error, so the two results differ. -/
theorem asyncTaskWait_timeout_after_twenty_fetches (up : Upstream) (info : RelayInfo)
    (taskID : String) (w : World)
    (hreq : up.newRequest "GET" (taskRequest info taskID).Url = none)
    (hpend : ∀ j, j < 20 → PendingAt up info taskID (w.taskFetches + j)) :
    asyncTaskWait up info taskID w
        = (⟨none, none, some "aliAsyncTaskWait timeout"⟩,
            { w with taskFetches := w.taskFetches + 20,
                     slept := w.slept ++ List.replicate 19 3 }) ∧
    ∀ (up2 : Upstream) (info2 : RelayInfo) (taskID2 : String) (w2 : World)
      (body : String) (rsp : AliResponse),
      up2.newRequest "GET" (taskRequest info2 taskID2).Url = none →
      up2.roundTrip w2.taskFetches (taskRequest info2 taskID2) = .ok body →
      up2.unmarshal body = .ok rsp →
      rsp.Output.TaskStatus = "FAILED" →
      (asyncTaskWait up2 info2 taskID2 w2).1 = ⟨some rsp, some body, none⟩ ∧
      (asyncTaskWait up2 info2 taskID2 w2).1 ≠ (asyncTaskWait up info taskID w).1 := by
  have hmain : asyncTaskWait up info taskID w
        = (⟨none, none, some "aliAsyncTaskWait timeout"⟩,
            { w with taskFetches := w.taskFetches + 20,
                     slept := w.slept ++ List.replicate 19 3 }) := by
    unfold asyncTaskWait
    rw [asyncTaskWaitLoop_pending up info taskID hreq 19 0 w (by decide)
      (fun j hj => hpend j (by omega))]
    rw [asyncTaskWaitLoop_cap up info taskID (0 + 19) (w.afterPending 19) hreq
      (by simpa [World.afterPending] using hpend 19 (by decide)) (by decide)]
    simp [World.afterPending, waitSeconds]
  refine ⟨hmain, ?_⟩
  intro up2 info2 taskID2 w2 body rsp h1 h2 h3 h4
  have hfail : (asyncTaskWait up2 info2 taskID2 w2).1 = ⟨some rsp, some body, none⟩ := by
    unfold asyncTaskWait
    rw [asyncTaskWaitLoop_terminal up2 info2 taskID2 0 w2 body rsp h1 h2 h3 (by simp [h4])]
  refine ⟨hfail, ?_⟩
  rw [hfail, hmain]
  simp

/-- C1 at a concrete input: an upstream that always answers `RUNNING`. -/
theorem asyncTaskWait_timeout_after_twenty_fetches_witness :
    asyncTaskWait (scripted []) exampleInfo "task-1" emptyWorld
      = (⟨none, none, some "aliAsyncTaskWait timeout"⟩,
          { emptyWorld with taskFetches := emptyWorld.taskFetches + 20,
                            slept := emptyWorld.slept ++ List.replicate 19 3 }) :=
  (asyncTaskWait_timeout_after_twenty_fetches (scripted []) exampleInfo "task-1" emptyWorld rfl
    (fun _ _ => ⟨"RUNNING", statusOnly "RUNNING", rfl, rfl, by decide, by decide⟩)).1

/-- C2: for `1 ≤ k ≤ 20`, when the first `k - 1` status fetches succeed with a
non-empty, non-terminal status and the `k`-th succeeds with a status among
SUCCEEDED, FAILED, CANCELED, UNKNOWN, `asyncTaskWait` makes exactly `k` fetches
(`k - 1` sleeps) and returns the `k`-th decoded response and its raw body with
a nil error. -/
theorem asyncTaskWait_returns_terminal_response (up : Upstream) (info : RelayInfo)
    (taskID : String) (w : World) (k : Nat) (body : String) (rsp : AliResponse)
    (hk1 : 1 ≤ k) (hk20 : k ≤ 20)
    (hreq : up.newRequest "GET" (taskRequest info taskID).Url = none)
    (hpend : ∀ j, j < k - 1 → PendingAt up info taskID (w.taskFetches + j))
    (hrt : up.roundTrip (w.taskFetches + (k - 1)) (taskRequest info taskID) = .ok body)
    (hdec : up.unmarshal body = .ok rsp)
    (hst : rsp.Output.TaskStatus ∈ ["SUCCEEDED", "FAILED", "CANCELED", "UNKNOWN"]) :
    asyncTaskWait up info taskID w
      = (⟨some rsp, some body, none⟩,
          { w with taskFetches := w.taskFetches + k,
                   slept := w.slept ++ List.replicate (k - 1) 3 }) := by
  unfold asyncTaskWait
  rw [asyncTaskWaitLoop_pending up info taskID hreq (k - 1) 0 w
    (by simp only [maxStep]; omega) hpend]
  rw [asyncTaskWaitLoop_terminal up info taskID (0 + (k - 1)) (w.afterPending (k - 1)) body rsp
    hreq (by simpa [World.afterPending] using hrt) hdec hst]
  have e : w.taskFetches + (k - 1) + 1 = w.taskFetches + k := by omega
  simp [World.afterPending, waitSeconds, e]

/-- C2 at a concrete input: PENDING, RUNNING, SUCCEEDED stops at attempt 3. -/
theorem asyncTaskWait_returns_terminal_response_witness :
    asyncTaskWait (scripted ["PENDING", "RUNNING", "SUCCEEDED"]) exampleInfo "task-1" emptyWorld
      = (⟨some (statusOnly "SUCCEEDED"), some "SUCCEEDED", none⟩,
          { emptyWorld with taskFetches := emptyWorld.taskFetches + 3,
                            slept := emptyWorld.slept ++ List.replicate (3 - 1) 3 }) :=
  asyncTaskWait_returns_terminal_response (scripted ["PENDING", "RUNNING", "SUCCEEDED"])
    exampleInfo "task-1" emptyWorld 3 "SUCCEEDED" (statusOnly "SUCCEEDED")
    (by decide) (by decide) rfl
    (by
      intro j hj
      have hj2 : j < 2 := hj
      interval_cases j
      · exact ⟨"PENDING", statusOnly "PENDING", rfl, rfl, by decide, by decide⟩
      · exact ⟨"RUNNING", statusOnly "RUNNING", rfl, rfl, by decide, by decide⟩)
    rfl rfl (by decide)

/-- C3, the code at the failing input: the status fetch answers with a payload
that has no task status but carries a message and a code; `asyncTaskWait`
returns the raw body of that fetch and a nil error, but the decoded response
it returns is the never-assigned zero value, not the payload that `updateTask`
decoded from that fetch. -/
theorem asyncTaskWait_empty_status_returns_zero_value :
    asyncTaskWait rejectingUpstream exampleInfo "task-1" emptyWorld
        = (⟨some default, some "rejected", none⟩, { emptyWorld with taskFetches := 1 }) ∧
    rejectingUpstream.unmarshal "rejected" = .ok rejectedPayload ∧
    rejectedPayload ≠ default ∧
    (updateTask rejectingUpstream exampleInfo "task-1" emptyWorld).1
        = (rejectedPayload, none, some "rejected") := by
  refine ⟨?_, rfl, by decide, rfl⟩
  unfold asyncTaskWait
  rw [asyncTaskWaitLoop_empty rejectingUpstream exampleInfo "task-1" 0 emptyWorld "rejected"
    rejectedPayload rfl rfl rfl rfl]
  rfl

/-- C6: the translator keeps the vendor items in order.  For a format other
than `b64_json` the output is the vendor list itself, item by item (URL and
embedded image), with no download; for `b64_json` it is the vendor list with
one download per item, restricted to the items whose download succeeded, each
with its URL and the downloaded encoding; so when exactly the download of item
`i` fails, the output is the other `N - 1` items in order. -/
theorem responseAli2OpenAIImage_preserves_order (up : Upstream) (response : AliResponse)
    (info : RelayInfo) (responseFormat : String) (w : World) :
    (responseAli2OpenAIImage up response info responseFormat w).1.Data
        = (if responseFormat = "b64_json" then
            (response.Output.Results.enumFrom w.imageFetches).filterMap (fetchedItem up)
          else response.Output.Results.map (fun d => imageData d d.B64Image)) ∧
    (responseFormat = "b64_json" →
      ∀ (i : Nat) (hi : i < response.Output.Results.length),
        (∃ e, up.getImageFromUrl (w.imageFetches + i) (response.Output.Results[i]).Url
            = .error e) →
        (∀ j (hj : j < response.Output.Results.length), j ≠ i → ∃ mime b64,
            up.getImageFromUrl (w.imageFetches + j) (response.Output.Results[j]).Url
              = .ok (mime, b64)) →
        (responseAli2OpenAIImage up response info responseFormat w).1.Data.length
            = response.Output.Results.length - 1 ∧
        (responseAli2OpenAIImage up response info responseFormat w).1.Data.map (fun x => x.Url)
            = (response.Output.Results.eraseIdx i).map (fun d => d.Url)) := by
  have hdata : (responseAli2OpenAIImage up response info responseFormat w).1.Data
        = (if responseFormat = "b64_json" then
            (response.Output.Results.enumFrom w.imageFetches).filterMap (fetchedItem up)
          else response.Output.Results.map (fun d => imageData d d.B64Image)) := by
    by_cases h : responseFormat = "b64_json"
    · subst h
      have := (translateResults_b64 up response.Output.Results []
        { w with translatorCalls := w.translatorCalls + 1 }).1
      simp only [List.nil_append] at this
      simp only [responseAli2OpenAIImage, if_true]
      exact this
    · simp [responseAli2OpenAIImage, translateResults_plain up responseFormat h, h]
  refine ⟨hdata, ?_⟩
  intro hfmt i hi hfail hok
  have hurl := fetched_all_but_one up response.Output.Results w.imageFetches i hi hfail hok
  rw [hdata, if_pos hfmt]
  refine ⟨?_, hurl⟩
  have := congrArg List.length hurl
  simp only [List.length_map] at this
  rw [this, List.length_eraseIdx, if_pos hi]

/-- C6 at a concrete input: three items, the second download fails. -/
theorem responseAli2OpenAIImage_preserves_order_witness :
    (responseAli2OpenAIImage (scripted []) threeResults exampleInfo "b64_json" emptyWorld).1.Data.length
        = threeResults.Output.Results.length - 1 ∧
    (responseAli2OpenAIImage (scripted []) threeResults exampleInfo "b64_json"
        emptyWorld).1.Data.map (fun x => x.Url)
        = (threeResults.Output.Results.eraseIdx 1).map (fun d => d.Url) :=
  (responseAli2OpenAIImage_preserves_order (scripted []) threeResults exampleInfo "b64_json"
    emptyWorld).2 rfl 1 (by decide) ⟨"download failed", rfl⟩
    (by
      intro j hj hne
      have hj3 : j < 3 := hj
      interval_cases j
      · exact ⟨"image/png", "b64:u1", rfl⟩
      · exact absurd rfl hne
      · exact ⟨"image/png", "b64:u3", rfl⟩)

/-- C7: when polling returns a response whose status is FAILED, CANCELED or
UNKNOWN, the handler returns the `ali_error` carrying exactly that response's
output message and output code (with the submit response's status code),
returns no usage, writes nothing to the caller, and neither calls the
translator nor downloads an image. -/
theorem aliImageHandler_non_success_is_ali_error (up : Upstream) (c : Context)
    (resp : HttpResponse) (info : RelayInfo) (w w1 : World) (responseBody : String)
    (submitted r : AliResponse) (b : Option String)
    (hbody : resp.Body = .ok responseBody)
    (hdec : up.unmarshal responseBody = .ok submitted)
    (hmsg : submitted.Message = "")
    (hwait : asyncTaskWait up info submitted.Output.TaskId w = (⟨some r, b, none⟩, w1))
    (hst : r.Output.TaskStatus ∈ ["FAILED", "CANCELED", "UNKNOWN"]) :
    aliImageHandler up c resp info w
        = ((some (.WithOpenAIError
              { Message := r.Output.Message, Type_ := "ali_error", Param := "",
                Code := r.Output.Code } resp.StatusCode), none), w1) ∧
    (aliImageHandler up c resp info w).2.written = w.written ∧
    (aliImageHandler up c resp info w).2.translatorCalls = w.translatorCalls ∧
    (aliImageHandler up c resp info w).2.imageFetches = w.imageFetches := by
  have hne : r.Output.TaskStatus ≠ "SUCCEEDED" := by
    simp only [List.mem_cons, List.mem_singleton, List.not_mem_nil, or_false] at hst
    rcases hst with h | h | h <;> rw [h] <;> decide
  have hmain : aliImageHandler up c resp info w
        = ((some (.WithOpenAIError
              { Message := r.Output.Message, Type_ := "ali_error", Param := "",
                Code := r.Output.Code } resp.StatusCode), none), w1) := by
    simp [aliImageHandler, hbody, hdec, hmsg, hwait, hne]
  have hframe := asyncTaskWaitLoop_frame up info submitted.Output.TaskId (maxStep - 0) 0 w rfl
  rw [show asyncTaskWaitLoop up info submitted.Output.TaskId 0 w
      = asyncTaskWait up info submitted.Output.TaskId w from rfl, hwait] at hframe
  rw [hmain]
  exact ⟨rfl, hframe.1, hframe.2.1, hframe.2.2.1⟩

/-- C7 at a concrete input: the task is reported FAILED on the second poll. -/
theorem aliImageHandler_non_success_is_ali_error_witness :
    aliImageHandler (scripted ["RUNNING", "FAILED"]) ⟨"url"⟩ ⟨200, .ok "SUBMITTED"⟩ exampleInfo
        emptyWorld
      = ((some (.WithOpenAIError
            { Message := (statusOnly "FAILED").Output.Message, Type_ := "ali_error", Param := "",
              Code := (statusOnly "FAILED").Output.Code } 200), none),
          { emptyWorld with taskFetches := 2, slept := [3] }) :=
  (aliImageHandler_non_success_is_ali_error (scripted ["RUNNING", "FAILED"]) ⟨"url"⟩
    ⟨200, .ok "SUBMITTED"⟩ exampleInfo emptyWorld { emptyWorld with taskFetches := 2, slept := [3] }
    "SUBMITTED" (statusOnly "SUBMITTED") (statusOnly "FAILED") (some "FAILED") rfl rfl rfl
    (by
      unfold asyncTaskWait
      rw [asyncTaskWaitLoop_pending (scripted ["RUNNING", "FAILED"]) exampleInfo _ rfl 1 0
        emptyWorld (by decide)
        (by
          intro j hj
          have hj1 : j < 1 := hj
          interval_cases j
          exact ⟨"RUNNING", statusOnly "RUNNING", rfl, rfl, by decide, by decide⟩)]
      rw [asyncTaskWaitLoop_terminal (scripted ["RUNNING", "FAILED"]) exampleInfo _ (0 + 1)
        (emptyWorld.afterPending 1) "FAILED" (statusOnly "FAILED") rfl rfl rfl (by decide)]
      rfl)
    (by decide)).1

end Ali

namespace Billing

theorem GetResponseBody_trace {F : Type} (env : Env F) (method url : String)
    (channel : Channel F) (headers : List (String × String)) (tr : List (Event F)) :
    ∃ reqs : List Request,
      (GetResponseBody env method url channel headers tr).2 = tr ++ reqs.map .httpDo := by
  unfold GetResponseBody
  rcases env.newRequest method url with _ | e
  · refine ⟨[{ Method := method, Url := url, Headers := headers }], ?_⟩
    simp only []
    rcases env.roundTrip tr { Method := method, Url := url, Headers := headers }
      with e | ⟨status, body, closeErr⟩
    · rfl
    · simp only []
      split
      · rfl
      · rcases body with e | b
        · rfl
        · rcases closeErr with _ | e <;> rfl
  · exact ⟨[], by simp⟩

theorem GetResponseBody_trace_eq {F : Type} {env : Env F} {method url : String}
    {channel : Channel F} {headers : List (String × String)} {tr tr1 : List (Event F)}
    {r : Except String String}
    (h : GetResponseBody env method url channel headers tr = (r, tr1)) :
    ∃ reqs : List Request, tr1 = tr ++ reqs.map .httpDo := by
  obtain ⟨reqs, hreqs⟩ := GetResponseBody_trace env method url channel headers tr
  rw [h] at hreqs
  exact ⟨reqs, hreqs⟩

theorem probeSpec_error {F : Type} (channel : Channel F) (tr : List (Event F))
    (reqs : List Request) (e : String) :
    ProbeSpec channel tr (.error e, channel, tr ++ reqs.map .httpDo) :=
  ⟨reqs, rfl, rfl⟩

theorem probeSpec_ok {F : Type} (channel : Channel F) (tr : List (Event F))
    (reqs : List Request) (balance : F) :
    ProbeSpec channel tr
      (.ok balance, channel.UpdateBalance balance (tr ++ reqs.map .httpDo)) :=
  ⟨reqs, rfl, rfl⟩

theorem updateChannelAIProxyBalance_spec {F : Type} (env : Env F) (channel : Channel F)
    (tr : List (Event F)) :
    ProbeSpec channel tr (updateChannelAIProxyBalance env channel tr) := by
  unfold updateChannelAIProxyBalance
  simp only []
  split
  · rename_i err tr1 hg
    obtain ⟨reqs, rfl⟩ := GetResponseBody_trace_eq hg
    exact probeSpec_error channel tr reqs err
  · rename_i body tr1 hg
    obtain ⟨reqs, rfl⟩ := GetResponseBody_trace_eq hg
    repeat' split
    all_goals first
      | exact probeSpec_error channel tr reqs _
      | exact probeSpec_ok channel tr reqs _

theorem updateChannelAPI2GPTBalance_spec {F : Type} (env : Env F) (channel : Channel F)
    (tr : List (Event F)) :
    ProbeSpec channel tr (updateChannelAPI2GPTBalance env channel tr) := by
  unfold updateChannelAPI2GPTBalance
  simp only []
  split
  · rename_i err tr1 hg
    obtain ⟨reqs, rfl⟩ := GetResponseBody_trace_eq hg
    exact probeSpec_error channel tr reqs err
  · rename_i body tr1 hg
    obtain ⟨reqs, rfl⟩ := GetResponseBody_trace_eq hg
    repeat' split
    all_goals first
      | exact probeSpec_error channel tr reqs _
      | exact probeSpec_ok channel tr reqs _

theorem updateChannelSiliconFlowBalance_spec {F : Type} (env : Env F) (channel : Channel F)
    (tr : List (Event F)) :
    ProbeSpec channel tr (updateChannelSiliconFlowBalance env channel tr) := by
  unfold updateChannelSiliconFlowBalance
  simp only []
  split
  · rename_i err tr1 hg
    obtain ⟨reqs, rfl⟩ := GetResponseBody_trace_eq hg
    exact probeSpec_error channel tr reqs err
  · rename_i body tr1 hg
    obtain ⟨reqs, rfl⟩ := GetResponseBody_trace_eq hg
    repeat' split
    all_goals first
      | exact probeSpec_error channel tr reqs _
      | exact probeSpec_ok channel tr reqs _

theorem updateChannelDeepSeekBalance_spec {F : Type} (env : Env F) (channel : Channel F)
    (tr : List (Event F)) :
    ProbeSpec channel tr (updateChannelDeepSeekBalance env channel tr) := by
  unfold updateChannelDeepSeekBalance
  simp only []
  split
  · rename_i err tr1 hg
    obtain ⟨reqs, rfl⟩ := GetResponseBody_trace_eq hg
    exact probeSpec_error channel tr reqs err
  · rename_i body tr1 hg
    obtain ⟨reqs, rfl⟩ := GetResponseBody_trace_eq hg
    repeat' split
    all_goals first
      | exact probeSpec_error channel tr reqs _
      | exact probeSpec_ok channel tr reqs _

theorem updateChannelAIGC2DBalance_spec {F : Type} (env : Env F) (channel : Channel F)
    (tr : List (Event F)) :
    ProbeSpec channel tr (updateChannelAIGC2DBalance env channel tr) := by
  unfold updateChannelAIGC2DBalance
  simp only []
  split
  · rename_i err tr1 hg
    obtain ⟨reqs, rfl⟩ := GetResponseBody_trace_eq hg
    exact probeSpec_error channel tr reqs err
  · rename_i body tr1 hg
    obtain ⟨reqs, rfl⟩ := GetResponseBody_trace_eq hg
    repeat' split
    all_goals first
      | exact probeSpec_error channel tr reqs _
      | exact probeSpec_ok channel tr reqs _

theorem updateChannelOpenRouterBalance_spec {F : Type} (env : Env F) (channel : Channel F)
    (tr : List (Event F)) :
    ProbeSpec channel tr (updateChannelOpenRouterBalance env channel tr) := by
  unfold updateChannelOpenRouterBalance
  simp only []
  split
  · rename_i err tr1 hg
    obtain ⟨reqs, rfl⟩ := GetResponseBody_trace_eq hg
    exact probeSpec_error channel tr reqs err
  · rename_i body tr1 hg
    obtain ⟨reqs, rfl⟩ := GetResponseBody_trace_eq hg
    repeat' split
    all_goals first
      | exact probeSpec_error channel tr reqs _
      | exact probeSpec_ok channel tr reqs _

theorem updateChannelMoonshotBalance_spec {F : Type} (env : Env F) (channel : Channel F)
    (tr : List (Event F)) (out : Except String F × Channel F × List (Event F))
    (h : updateChannelMoonshotBalance env channel tr = some out) :
    ProbeSpec channel tr out := by
  unfold updateChannelMoonshotBalance at h
  simp only [] at h
  split at h
  · rename_i err tr1 hg
    obtain ⟨reqs, rfl⟩ := GetResponseBody_trace_eq hg
    cases h
    exact probeSpec_error channel tr reqs err
  · rename_i body tr1 hg
    obtain ⟨reqs, rfl⟩ := GetResponseBody_trace_eq hg
    split at h
    · cases h
      exact probeSpec_error channel tr reqs _
    · split at h
      · cases h
        exact probeSpec_error channel tr reqs _
      · split at h
        · cases h
        · cases h
          exact probeSpec_ok channel tr reqs _


theorem updateChannelSubscriptionBalance_spec {F : Type} (env : Env F) (baseURL : String)
    (channel : Channel F) (tr : List (Event F)) :
    ProbeSpec channel tr (updateChannelSubscriptionBalance env baseURL channel tr) := by
  unfold updateChannelSubscriptionBalance
  simp only []
  split
  · rename_i err tr1 hg
    obtain ⟨reqs, rfl⟩ := GetResponseBody_trace_eq hg
    exact probeSpec_error channel tr reqs err
  · rename_i body tr1 hg
    obtain ⟨reqs, rfl⟩ := GetResponseBody_trace_eq hg
    split
    · exact probeSpec_error channel tr reqs _
    · split
      · rename_i err tr2 hg2
        obtain ⟨reqs2, rfl⟩ := GetResponseBody_trace_eq hg2
        rw [List.append_assoc, ← List.map_append]
        exact probeSpec_error channel tr (reqs ++ reqs2) err
      · rename_i body2 tr2 hg2
        obtain ⟨reqs2, rfl⟩ := GetResponseBody_trace_eq hg2
        rw [List.append_assoc, ← List.map_append]
        split
        · exact probeSpec_error channel tr (reqs ++ reqs2) _
        · exact probeSpec_ok channel tr (reqs ++ reqs2) _

/-- The effect of `updateChannelBalance`, for every channel type and every
environment, whenever the call returns. -/
theorem updateChannelBalance_spec {F : Type} (env : Env F) (channel : Channel F)
    (tr : List (Event F)) (out : Except String F × Channel F × List (Event F))
    (h : updateChannelBalance env channel tr = some out) :
    ProbeSpec (withDefaultBaseURL env channel) tr out := by
  unfold updateChannelBalance at h
  simp only [] at h
  rw [show (if channel.GetBaseURL = "" then
        { channel with BaseURL := some (env.ChannelBaseURLs channel.Type_) } else channel)
      = withDefaultBaseURL env channel from rfl] at h
  split at h
  · cases h; exact updateChannelSubscriptionBalance_spec env _ _ tr
  · cases h; exact ⟨[], rfl, by simp⟩
  · cases h; exact updateChannelSubscriptionBalance_spec env _ _ tr
  · cases h; exact updateChannelAIProxyBalance_spec env _ tr
  · cases h; exact updateChannelAPI2GPTBalance_spec env _ tr
  · cases h; exact updateChannelAIGC2DBalance_spec env _ tr
  · cases h; exact updateChannelSiliconFlowBalance_spec env _ tr
  · cases h; exact updateChannelDeepSeekBalance_spec env _ tr
  · cases h; exact updateChannelOpenRouterBalance_spec env _ tr
  · exact updateChannelMoonshotBalance_spec env _ tr out h
  · cases h; exact ⟨[], rfl, by simp⟩

theorem withDefaultBaseURL_fields {F : Type} (env : Env F) (channel : Channel F) :
    (withDefaultBaseURL env channel).Id = channel.Id ∧
    (withDefaultBaseURL env channel).Type_ = channel.Type_ ∧
    (withDefaultBaseURL env channel).Name = channel.Name ∧
    (withDefaultBaseURL env channel).IsMultiKey = channel.IsMultiKey ∧
    (withDefaultBaseURL env channel).AutoBan = channel.AutoBan ∧
    (withDefaultBaseURL env channel).Balance = channel.Balance ∧
    (withDefaultBaseURL env channel).Key = channel.Key := by
  unfold withDefaultBaseURL
  split <;> simp

theorem probeResults_append {F : Type} (a b : List (Event F)) :
    probeResults (a ++ b) = probeResults a ++ probeResults b := by
  induction a with
  | nil => rfl
  | cons e rest ih => cases e <;> simp [probeResults, ih]

theorem disables_append {F : Type} (a b : List (Event F)) :
    disables (a ++ b) = disables a ++ disables b := by
  induction a with
  | nil => rfl
  | cons e rest ih => cases e <;> simp [disables, ih]

theorem balanceUpdates_append {F : Type} (a b : List (Event F)) :
    balanceUpdates (a ++ b) = balanceUpdates a ++ balanceUpdates b := by
  induction a with
  | nil => rfl
  | cons e rest ih => cases e <;> simp [balanceUpdates, ih]

theorem probeResults_httpDo {F : Type} (reqs : List Request) :
    probeResults (reqs.map (Event.httpDo : Request → Event F)) = [] := by
  induction reqs with
  | nil => rfl
  | cons r rest ih => simpa [probeResults] using ih

theorem disables_httpDo {F : Type} (reqs : List Request) :
    disables (reqs.map (Event.httpDo : Request → Event F)) = [] := by
  induction reqs with
  | nil => rfl
  | cons r rest ih => simpa [disables] using ih

theorem balanceUpdates_httpDo {F : Type} (reqs : List Request) :
    balanceUpdates (reqs.map (Event.httpDo : Request → Event F)) = [] := by
  induction reqs with
  | nil => rfl
  | cons r rest ih => simpa [balanceUpdates] using ih

theorem requests_append {F : Type} (a b : List (Event F)) :
    requests (a ++ b) = requests a ++ requests b := by
  induction a with
  | nil => rfl
  | cons e rest ih => cases e <;> simp [requests, ih]

/-- Only the Moonshot probe can panic. -/
theorem updateChannelBalance_returns {F : Type} (env : Env F) (channel : Channel F)
    (tr : List (Event F)) (h : channel.Type_ ≠ .Moonshot) :
    ∃ out, updateChannelBalance env channel tr = some out := by
  have hty : (withDefaultBaseURL env channel).Type_ = channel.Type_ :=
    (withDefaultBaseURL_fields env channel).2.1
  unfold updateChannelBalance
  simp only []
  rw [show (if channel.GetBaseURL = "" then
        { channel with BaseURL := some (env.ChannelBaseURLs channel.Type_) } else channel)
      = withDefaultBaseURL env channel from rfl, hty]
  cases hT : channel.Type_ <;> first | exact ⟨_, rfl⟩ | exact absurd hT h

/-- One pass of the sweep's loop: what the visit of the first channel adds to
the trace, and how the loop goes on. -/
theorem sweepChannels_cons {F : Type} (env : Env F) (channel : Channel F)
    (rest : List (Channel F)) (tr : List (Event F))
    (hret : ∃ out, updateChannelBalance env channel tr = some out) :
    ∃ seg : List (Event F),
      sweepChannels env (channel :: rest) tr = sweepChannels env rest (tr ++ seg) ∧
      ProbedOnce env channel tr seg ∧ DisabledIfDepleted env channel tr seg ∧
      (probeResults seg).map Prod.fst = [channel].filter (eligible env) := by
  by_cases hel : eligible env channel = true
  · have hel2 := hel
    simp only [eligible, Bool.and_eq_true, decide_eq_true_eq, Bool.not_eq_true'] at hel2
    obtain ⟨hs, hm⟩ := hel2
    obtain ⟨⟨result, channel1, tr1⟩, hu⟩ := hret
    obtain ⟨reqs, hspec⟩ := updateChannelBalance_spec env channel tr _ hu
    obtain ⟨hid, hty, hname, hmk, hab, -, -⟩ := withDefaultBaseURL_fields env channel
    cases result with
    | error e =>
      simp only [] at hspec
      obtain ⟨-, htr⟩ := hspec
      subst htr
      refine ⟨reqs.map .httpDo ++ [.probe channel (.error e)], ?_, ?_, ?_, ?_⟩
      · rw [sweepChannels]
        simp [hs, hm, hu]
      · unfold ProbedOnce
        rw [if_pos hel]
        exact ⟨_, [], hu, by simp, rfl, rfl, rfl⟩
      · unfold DisabledIfDepleted
        rw [if_pos hel]
        exact ⟨_, [], hu, by simp,
          by simp [disables_append, disables_httpDo, disables, disablesDue]⟩
      · simp [probeResults_append, probeResults_httpDo, probeResults, hel]
    | ok balance =>
      simp only [] at hspec
      obtain ⟨hch, htr⟩ := hspec
      subst htr
      subst hch
      by_cases hle : env.le balance env.zero = true
      · refine ⟨reqs.map .httpDo
            ++ [.updateBalance (withDefaultBaseURL env channel).Id balance]
            ++ [.probe channel (.ok balance)]
            ++ ([.disableChannel (disableCall channel).1 (disableCall channel).2]
                ++ [.sleep env.RequestInterval]), ?_, ?_, ?_, ?_⟩
        · rw [sweepChannels]
          simp [hs, hm, hu, hle, hid, hty, hname, hmk, hab, Channel.GetAutoBan, disableCall]
        · unfold ProbedOnce
          rw [if_pos hel]
          exact ⟨_, ([.disableChannel (disableCall channel).1 (disableCall channel).2,
              .sleep env.RequestInterval] : List (Event F)), hu, by simp, rfl, rfl, rfl⟩
        · unfold DisabledIfDepleted
          rw [if_pos hel]
          exact ⟨_, ([.disableChannel (disableCall channel).1 (disableCall channel).2,
              .sleep env.RequestInterval] : List (Event F)), hu, by simp,
            by simp [disables_append, disables_httpDo, disables, disablesDue, hle]⟩
        · simp [probeResults_append, probeResults_httpDo, probeResults, hel]
      · refine ⟨reqs.map .httpDo
            ++ [.updateBalance (withDefaultBaseURL env channel).Id balance]
            ++ [.probe channel (.ok balance)]
            ++ [.sleep env.RequestInterval], ?_, ?_, ?_, ?_⟩
        · rw [sweepChannels]
          simp [hs, hm, hu, hle]
        · unfold ProbedOnce
          rw [if_pos hel]
          exact ⟨_, ([.sleep env.RequestInterval] : List (Event F)), hu, by simp, rfl, rfl, rfl⟩
        · unfold DisabledIfDepleted
          rw [if_pos hel]
          exact ⟨_, ([.sleep env.RequestInterval] : List (Event F)), hu, by simp,
            by simp [disables_append, disables_httpDo, disables, disablesDue, hle]⟩
        · simp [probeResults_append, probeResults_httpDo, probeResults, hel]
  · refine ⟨[], ?_, ?_, ?_, ?_⟩
    · rw [sweepChannels]
      simp only [eligible, Bool.and_eq_true, decide_eq_true_eq, Bool.not_eq_true',
        not_and, Bool.not_eq_false] at hel
      by_cases hs : channel.Status = env.ChannelStatusEnabled
      · simp [hs, hel hs]
      · simp [hs]
    · unfold ProbedOnce
      rw [if_neg hel]
    · unfold DisabledIfDepleted
      rw [if_neg hel]
    · simp [probeResults, hel]

/-- A sweep in which every probe returns: it returns, and its trace splits into
one part per channel of the list, in order, each part being the visit of its
channel at the trace reached so far. -/
theorem sweepChannels_visits {F : Type} (env : Env F) :
    ∀ (channels : List (Channel F)),
      (∀ c ∈ channels, ∀ t, ∃ out, updateChannelBalance env c t = some out) →
      ∀ (tr : List (Event F)),
      ∃ segs : List (List (Event F)), segs.length = channels.length ∧
        sweepChannels env channels tr = some (tr ++ segs.flatten) ∧
        (∀ (i : Nat) (hi : i < channels.length) (hs : i < segs.length),
          ProbedOnce env channels[i] (tr ++ (segs.take i).flatten) segs[i] ∧
          DisabledIfDepleted env channels[i] (tr ++ (segs.take i).flatten) segs[i]) ∧
        (probeResults segs.flatten).map Prod.fst = channels.filter (eligible env) := by
  intro channels
  induction channels with
  | nil =>
    intro _ tr
    refine ⟨[], rfl, by simp [sweepChannels], ?_, rfl⟩
    intro i hi
    exact absurd hi (by simp)
  | cons channel rest ih =>
    intro hret tr
    obtain ⟨seg, hstep, hp, hd, hpr⟩ :=
      sweepChannels_cons env channel rest tr (hret channel (List.mem_cons_self _ _) tr)
    obtain ⟨segs, hlen, hrun, hvis, hprs⟩ :=
      ih (fun c hc t => hret c (List.mem_cons_of_mem _ hc) t) (tr ++ seg)
    refine ⟨seg :: segs, by simp [hlen], ?_, ?_, ?_⟩
    · rw [hstep, hrun]
      simp
    · intro i hi hs
      cases i with
      | zero => simpa using And.intro hp hd
      | succ i =>
        have := hvis i (by simpa using hi) (by simpa using hs)
        simpa [List.append_assoc] using this
    · rw [List.flatten_cons, probeResults_append, List.map_append, hpr, hprs]
      by_cases hel : eligible env channel = true
      · simp [List.filter_cons, hel]
      · simp [List.filter_cons, hel]


/-- C9, the code at the failing input: the store holds two enabled single-key
channels and every request is answered with status 500.  Both channels are
probed, each probe sends its request and fails, and the sweep goes from the
first probe to the second without any sleep. -/
theorem updateAllChannelsBalance_no_sleep_after_failed_probe :
    updateAllChannelsBalance failingEnv []
      = some (none,
          [.httpDo subscriptionRequest,
           .probe (exampleChannel 1 .OpenAI) (.error "status code: 500"),
           .httpDo subscriptionRequest,
           .probe (exampleChannel 2 .OpenAI) (.error "status code: 500")]) := by
  rfl

/-- With a zero exchange rate the Moonshot probe panics in the decimal
division, and the run ends there: the sweep does not return and the channel
after it is not reached. -/
theorem updateAllChannelsBalance_zero_price_panics :
    updateChannelBalance zeroPriceEnv (exampleChannel 1 .Moonshot) [] = none ∧
    updateAllChannelsBalance zeroPriceEnv [] = none := by
  exact ⟨rfl, rfl⟩


/-- C4: whenever the store returns a list of channels and every probe of a
listed channel returns (an error or a balance), the sweep returns with a nil
error, and its trace splits into one part per channel of the list, in store
order: a channel that is disabled or multi-key contributes nothing, and for
every other channel `updateChannelBalance` is called on it exactly once, at the
trace reached so far, whatever the earlier probes returned.  So the probes made
are exactly the enabled, not multi-key channels, each once and in store
order. -/
theorem updateAllChannelsBalance_probes_eligible_channels {F : Type} (env : Env F)
    (tr : List (Event F)) (channels : List (Channel F))
    (hstore : env.GetAllChannels tr = .ok channels)
    (hret : ∀ c ∈ channels, ∀ t, ∃ out, updateChannelBalance env c t = some out) :
    ∃ segs : List (List (Event F)), segs.length = channels.length ∧
      updateAllChannelsBalance env tr = some (none, tr ++ segs.flatten) ∧
      (∀ (i : Nat) (hi : i < channels.length) (hs : i < segs.length),
        ProbedOnce env channels[i] (tr ++ (segs.take i).flatten) segs[i]) ∧
      (probeResults segs.flatten).map Prod.fst = channels.filter (eligible env) := by
  obtain ⟨segs, hlen, hrun, hvis, hprs⟩ := sweepChannels_visits env channels hret tr
  refine ⟨segs, hlen, ?_, fun i hi hs => (hvis i hi hs).1, hprs⟩
  unfold updateAllChannelsBalance
  rw [hstore]
  simp only [hrun]

theorem mixedChannels_return (c : Channel ℚ) (hc : c ∈ mixedChannels) (t : List (Event ℚ)) :
    ∃ out, updateChannelBalance mixedEnv c t = some out := by
  apply updateChannelBalance_returns
  simp only [mixedChannels, List.mem_cons, List.mem_singleton, List.not_mem_nil, or_false] at hc
  rcases hc with rfl | rfl | rfl | rfl <;> decide

/-- C4 at a concrete input: of a disabled, a multi-key and two enabled
single-key channels the last two are probed, the second of them although the
probe of the first failed. -/
theorem updateAllChannelsBalance_probes_eligible_channels_witness :
    ∃ segs : List (List (Event ℚ)), segs.length = mixedChannels.length ∧
      updateAllChannelsBalance mixedEnv [] = some (none, [] ++ segs.flatten) ∧
      (∀ (i : Nat) (hi : i < mixedChannels.length) (hs : i < segs.length),
        ProbedOnce mixedEnv mixedChannels[i] ([] ++ (segs.take i).flatten) segs[i]) ∧
      (probeResults segs.flatten).map Prod.fst = mixedChannels.filter (eligible mixedEnv) :=
  updateAllChannelsBalance_probes_eligible_channels mixedEnv [] mixedChannels rfl
    mixedChannels_return

/-- The sweep of the mixed example, step by step: nothing for the two skipped
channels, the request and the failed probe of channel 3, then the probe of
channel 4. -/
theorem updateAllChannelsBalance_mixed_example :
    updateAllChannelsBalance mixedEnv []
      = some (none,
          [.httpDo { Method := "GET",
                     Url := "https://api.aigc2d.com/dashboard/billing/credit_grants",
                     Headers := [("Authorization", "Bearer sk-1")] },
           .probe (exampleChannel 3 .AIGC2D) (.error "unexpected end of JSON input"),
           .probe (exampleChannel 4 .Azure) (.error "尚未实现")]) ∧
    mixedChannels.filter (eligible mixedEnv)
      = [exampleChannel 3 .AIGC2D, exampleChannel 4 .Azure] := by
  exact ⟨rfl, by decide⟩

/-- C5: whenever the store returns a list of channels and every probe of a
listed channel returns, the trace of the sweep splits into one part per channel
of the list, in store order, and in the part of a channel the disable operation
is called exactly once, with reason "余额不足" and the channel's id and auto-ban
flag, if the channel was probed and `updateChannelBalance` returned a balance
`<= 0` with a nil error, and is not called at all if the returned balance is
not `<= 0`, the probe returned an error, or the channel was skipped. -/
theorem updateAllChannelsBalance_disables_depleted_once {F : Type} (env : Env F)
    (tr : List (Event F)) (channels : List (Channel F))
    (hstore : env.GetAllChannels tr = .ok channels)
    (hret : ∀ c ∈ channels, ∀ t, ∃ out, updateChannelBalance env c t = some out) :
    ∃ segs : List (List (Event F)), segs.length = channels.length ∧
      updateAllChannelsBalance env tr = some (none, tr ++ segs.flatten) ∧
      (∀ (i : Nat) (hi : i < channels.length) (hs : i < segs.length),
        DisabledIfDepleted env channels[i] (tr ++ (segs.take i).flatten) segs[i]) := by
  obtain ⟨segs, hlen, hrun, hvis, _⟩ := sweepChannels_visits env channels hret tr
  refine ⟨segs, hlen, ?_, fun i hi hs => (hvis i hi hs).2⟩
  unfold updateAllChannelsBalance
  rw [hstore]
  simp only [hrun]

theorem depletedChannels_return (c : Channel ℚ) (hc : c ∈ depletedChannels)
    (t : List (Event ℚ)) : ∃ out, updateChannelBalance depletedEnv c t = some out := by
  apply updateChannelBalance_returns
  simp only [depletedChannels, List.mem_cons, List.mem_singleton, List.not_mem_nil,
    or_false] at hc
  rcases hc with rfl | rfl <;> decide

/-- C5 at a concrete input: a channel with no credit left and a channel whose
probe fails. -/
theorem updateAllChannelsBalance_disables_depleted_once_witness :
    ∃ segs : List (List (Event ℚ)), segs.length = depletedChannels.length ∧
      updateAllChannelsBalance depletedEnv [] = some (none, [] ++ segs.flatten) ∧
      (∀ (i : Nat) (hi : i < depletedChannels.length) (hs : i < segs.length),
        DisabledIfDepleted depletedEnv depletedChannels[i] ([] ++ (segs.take i).flatten)
          segs[i]) :=
  updateAllChannelsBalance_disables_depleted_once depletedEnv [] depletedChannels rfl
    depletedChannels_return

/-- The sweep of the example with a depleted channel, step by step: request,
balance write, probe result, disable call, sleep; then the failed probe of the
second channel, with no disable call. -/
theorem updateAllChannelsBalance_depleted_example :
    updateAllChannelsBalance depletedEnv []
      = some (none,
          [.httpDo { Method := "GET",
                     Url := "https://api.aigc2d.com/dashboard/billing/credit_grants",
                     Headers := [("Authorization", "Bearer sk-1")] },
           .updateBalance 1 0,
           .probe (exampleChannel 1 .AIGC2D) (.ok 0),
           .disableChannel (NewChannelError 1 .AIGC2D "c" false "" true) "余额不足",
           .sleep 5,
           .probe (exampleChannel 2 .Azure) (.error "尚未实现")]) := by
  rfl


theorem balanceUpdates_of_error {F : Type} {channel : Channel F} {tr : List (Event F)}
    {out : Except String F × Channel F × List (Event F)} {e : String}
    (hspec : ProbeSpec channel tr out) (herr : out.1 = .error e) :
    out.2.1 = channel ∧ balanceUpdates out.2.2 = balanceUpdates tr := by
  obtain ⟨reqs, h⟩ := hspec
  rw [herr] at h
  simp only [] at h
  refine ⟨h.1, ?_⟩
  rw [h.2, balanceUpdates_append, balanceUpdates_httpDo, List.append_nil]

/-- C8: for every channel type and every upstream behaviour, when
`updateChannelBalance` returns an error the channel's balance field is what it
was and `UpdateBalance` was not called; in particular, for a DeepSeek channel
whose fetched payload decodes to balance rows none of which has currency
`CNY`, the call returns the error "currency CNY not found" and the balance is
unchanged. -/
theorem updateChannelBalance_error_leaves_balance {F : Type} (env : Env F)
    (channel : Channel F) (tr : List (Event F)) :
    (∀ out e, updateChannelBalance env channel tr = some out → out.1 = .error e →
      out.2.1.Balance = channel.Balance ∧ balanceUpdates out.2.2 = balanceUpdates tr) ∧
    (channel.Type_ = .DeepSeek →
      ∀ (body : String) (response : DeepSeekUsageResponse),
        (GetResponseBody env "GET" "https://api.deepseek.com/user/balance"
            (withDefaultBaseURL env channel) (GetAuthHeader channel.Key) tr).1 = .ok body →
        env.json.deepSeek body = .ok response →
        (∀ info ∈ response.BalanceInfos, info.Currency ≠ "CNY") →
        ∃ out, updateChannelBalance env channel tr = some out ∧
          out.1 = .error "currency CNY not found" ∧
          out.2.1.Balance = channel.Balance ∧
          balanceUpdates out.2.2 = balanceUpdates tr) := by
  have hgen : ∀ out e, updateChannelBalance env channel tr = some out → out.1 = .error e →
      out.2.1.Balance = channel.Balance ∧ balanceUpdates out.2.2 = balanceUpdates tr := by
    intro out e hout he
    obtain ⟨h1, h2⟩ := balanceUpdates_of_error (updateChannelBalance_spec env channel tr out hout) he
    refine ⟨?_, h2⟩
    rw [h1]
    exact (withDefaultBaseURL_fields env channel).2.2.2.2.2.1
  refine ⟨hgen, ?_⟩
  intro htype body response hbody hdec hnone
  have hkey : (withDefaultBaseURL env channel).Key = channel.Key :=
    (withDefaultBaseURL_fields env channel).2.2.2.2.2.2
  have hty : (withDefaultBaseURL env channel).Type_ = .DeepSeek := by
    rw [(withDefaultBaseURL_fields env channel).2.1, htype]
  have hfind : response.BalanceInfos.find? (fun balanceInfo => balanceInfo.Currency = "CNY")
      = none := by
    rw [List.find?_eq_none]
    intro info hinfo
    simpa using hnone info hinfo
  have hcall : updateChannelBalance env channel tr
      = some (updateChannelDeepSeekBalance env (withDefaultBaseURL env channel) tr) := by
    unfold updateChannelBalance
    simp only []
    rw [show (if channel.GetBaseURL = "" then
          { channel with BaseURL := some (env.ChannelBaseURLs channel.Type_) } else channel)
        = withDefaultBaseURL env channel from rfl]
    rw [hty]
  have herr : (updateChannelDeepSeekBalance env (withDefaultBaseURL env channel) tr).1
      = .error "currency CNY not found" := by
    simp only [updateChannelDeepSeekBalance, hkey]
    rcases hg : GetResponseBody env "GET" "https://api.deepseek.com/user/balance"
        (withDefaultBaseURL env channel) (GetAuthHeader channel.Key) tr with ⟨r, tr1⟩
    rw [hg] at hbody
    simp only [] at hbody
    subst hbody
    simp only [hdec, hfind]
  obtain ⟨h1, h2⟩ := hgen _ _ hcall herr
  exact ⟨_, hcall, herr, h1, h2⟩

/-- C8 at a concrete input: a DeepSeek payload with only a `USD` row. -/
theorem updateChannelBalance_error_leaves_balance_witness :
    ∃ out, updateChannelBalance usdOnlyEnv (exampleChannel 7 .DeepSeek) [] = some out ∧
      out.1 = .error "currency CNY not found" ∧
      out.2.1.Balance = (exampleChannel 7 .DeepSeek).Balance ∧
      balanceUpdates out.2.2 = balanceUpdates [] :=
  (updateChannelBalance_error_leaves_balance usdOnlyEnv (exampleChannel 7 .DeepSeek) []).2 rfl
    "{}" usdOnly rfl rfl (by decide)

theorem billingBaseURL_openAI {F : Type} (env : Env F) (channel : Channel F) :
    (if (withDefaultBaseURL env channel).GetBaseURL ≠ "" then
        (withDefaultBaseURL env channel).GetBaseURL
      else env.ChannelBaseURLs channel.Type_) = billingBaseURL env channel := by
  unfold billingBaseURL
  by_cases h : (withDefaultBaseURL env channel).GetBaseURL = ""
  · simp only [h, ne_eq, not_true_eq_false, if_false]
    unfold withDefaultBaseURL at h
    by_cases h0 : channel.GetBaseURL = ""
    · rw [if_pos h0] at h
      simpa [Channel.GetBaseURL] using h
    · rw [if_neg h0] at h
      exact absurd h h0
  · simp [h]

theorem usageStartDate_eq {F : Type} (env : Env F) (hasPaymentMethod : Bool) (now : Int) :
    (if (!hasPaymentMethod) = true then env.format "2006-01-02" (now + (-100))
      else env.format "2006-01" now ++ "-01") = usageStartDate env hasPaymentMethod now := by
  cases hasPaymentMethod <;> simp [usageStartDate, Int.sub_eq_add_neg]

/-- For the OpenAI and custom types `updateChannelBalance` is the
subscription-and-usage protocol against the channel's base URL. -/
theorem updateChannelBalance_subscription {F : Type} (env : Env F) (channel : Channel F)
    (tr : List (Event F)) (htype : channel.Type_ = .OpenAI ∨ channel.Type_ = .Custom) :
    updateChannelBalance env channel tr
      = some (updateChannelSubscriptionBalance env (billingBaseURL env channel)
          (withDefaultBaseURL env channel) tr) := by
  have hty : (withDefaultBaseURL env channel).Type_ = channel.Type_ :=
    (withDefaultBaseURL_fields env channel).2.1
  unfold updateChannelBalance
  simp only []
  rw [show (if channel.GetBaseURL = "" then
        { channel with BaseURL := some (env.ChannelBaseURLs channel.Type_) } else channel)
      = withDefaultBaseURL env channel from rfl]
  rw [hty]
  rcases htype with h | h
  · have hb := billingBaseURL_openAI env channel
    rw [h] at hb ⊢
    simp only []
    rw [hb]
  · rw [h]
    rfl

/-- A successful `GetResponseBody` sent exactly its one request. -/
theorem GetResponseBody_ok_trace {F : Type} {env : Env F} {method url : String}
    {channel : Channel F} {headers : List (String × String)} {tr tr1 : List (Event F)}
    {body : String}
    (h : GetResponseBody env method url channel headers tr = (.ok body, tr1)) :
    tr1 = tr ++ [.httpDo { Method := method, Url := url, Headers := headers }] := by
  unfold GetResponseBody at h
  rcases hn : env.newRequest method url with _ | e
  · rw [hn] at h
    simp only [] at h
    exact (congrArg (fun p => p.2) h).symm.trans (by
      rcases env.roundTrip tr { Method := method, Url := url, Headers := headers }
        with e | ⟨status, b, closeErr⟩
      · rfl
      · simp only []
        split
        · rfl
        · rcases b with e | b
          · rfl
          · rcases closeErr with _ | e <;> rfl)
  · rw [hn] at h
    simp at h

/-- C10: for a channel of the OpenAI or custom type whose subscription fetch
and usage fetch both succeed and decode, `updateChannelBalance` returns the
balance `hard_limit_usd - total_usage / 100` with a nil error and writes it
onto the channel, once, after the two requests; the usage request asks for the
window from the first day of the current month when `has_payment_method` is
true, and from 100 days before now otherwise, up to today. -/
theorem updateChannelBalance_openai_balance {F : Type} (env : Env F) (channel : Channel F)
    (tr tr1 tr2 : List (Event F)) (body1 body2 : String)
    (subscription : OpenAISubscriptionResponse F) (usage : OpenAIUsageResponse F)
    (htype : channel.Type_ = .OpenAI ∨ channel.Type_ = .Custom)
    (hsub : GetResponseBody env "GET"
        (billingBaseURL env channel ++ "/v1/dashboard/billing/subscription")
        (withDefaultBaseURL env channel) (GetAuthHeader channel.Key) tr = (.ok body1, tr1))
    (hdec1 : env.json.subscription body1 = .ok subscription)
    (husage : GetResponseBody env "GET"
        (billingBaseURL env channel ++ "/v1/dashboard/billing/usage?start_date="
          ++ usageStartDate env subscription.HasPaymentMethod (env.now tr1)
          ++ "&end_date=" ++ env.format "2006-01-02" (env.now tr1))
        (withDefaultBaseURL env channel) (GetAuthHeader channel.Key) tr1 = (.ok body2, tr2))
    (hdec2 : env.json.usage body2 = .ok usage) :
    updateChannelBalance env channel tr
      = some (.ok (env.sub subscription.HardLimitUSD (env.div usage.TotalUsage env.hundred)),
          { withDefaultBaseURL env channel with
            Balance := env.sub subscription.HardLimitUSD (env.div usage.TotalUsage env.hundred) },
          tr2 ++ [.updateBalance channel.Id
            (env.sub subscription.HardLimitUSD (env.div usage.TotalUsage env.hundred))]) ∧
    tr2 = tr ++
      [.httpDo { Method := "GET",
                 Url := billingBaseURL env channel ++ "/v1/dashboard/billing/subscription",
                 Headers := GetAuthHeader channel.Key },
       .httpDo { Method := "GET",
                 Url := billingBaseURL env channel ++ "/v1/dashboard/billing/usage?start_date="
                   ++ usageStartDate env subscription.HasPaymentMethod (env.now tr1)
                   ++ "&end_date=" ++ env.format "2006-01-02" (env.now tr1),
                 Headers := GetAuthHeader channel.Key }] := by
  refine ⟨?_, by
    rw [GetResponseBody_ok_trace husage, GetResponseBody_ok_trace hsub, List.append_assoc]
    rfl⟩
  have hkey : (withDefaultBaseURL env channel).Key = channel.Key :=
    (withDefaultBaseURL_fields env channel).2.2.2.2.2.2
  have hid : (withDefaultBaseURL env channel).Id = channel.Id :=
    (withDefaultBaseURL_fields env channel).1
  have hty : (withDefaultBaseURL env channel).Type_ = channel.Type_ :=
    (withDefaultBaseURL_fields env channel).2.1
  have htail : updateChannelSubscriptionBalance env (billingBaseURL env channel)
        (withDefaultBaseURL env channel) tr
      = (.ok (env.sub subscription.HardLimitUSD (env.div usage.TotalUsage env.hundred)),
          { withDefaultBaseURL env channel with
            Balance := env.sub subscription.HardLimitUSD (env.div usage.TotalUsage env.hundred) },
          tr2 ++ [.updateBalance channel.Id
            (env.sub subscription.HardLimitUSD (env.div usage.TotalUsage env.hundred))]) := by
    unfold updateChannelSubscriptionBalance
    simp only [hkey, hsub, hdec1, usageStartDate_eq, husage, hdec2, Channel.UpdateBalance, hid]
  rw [← htail]
  exact updateChannelBalance_subscription env channel tr htype

/-- C10 at a concrete input: hard limit 100 and usage 2500 cents give 75. -/
theorem updateChannelBalance_openai_balance_witness :
    (updateChannelBalance openAIEnv (exampleChannel 1 .OpenAI) []).map (fun out => out.1)
      = some (.ok 75) ∧
    (updateChannelBalance openAIEnv (exampleChannel 1 .OpenAI) []).map
        (fun out => requests out.2.2)
      = some [subscriptionRequest,
         { Method := "GET",
           Url := "https://api.openai.com/v1/dashboard/billing/usage?start_date="
             ++ "2006-01@19800-01" ++ "&end_date=" ++ "2006-01-02@19800",
           Headers := [("Authorization", "Bearer sk-1")] }] := by
  have h := updateChannelBalance_openai_balance openAIEnv (exampleChannel 1 .OpenAI) []
    [.httpDo subscriptionRequest]
    [.httpDo subscriptionRequest,
     .httpDo { Method := "GET",
               Url := "https://api.openai.com/v1/dashboard/billing/usage?start_date="
                 ++ "2006-01@19800-01" ++ "&end_date=" ++ "2006-01-02@19800",
               Headers := [("Authorization", "Bearer sk-1")] }]
    "{}" "{}"
    { Object := "billing_subscription", HasPaymentMethod := true, SoftLimitUSD := 80,
      HardLimitUSD := 100, SystemHardLimitUSD := 120, AccessUntil := 0 }
    { Object := "list", TotalUsage := 2500 }
    (Or.inl rfl) rfl rfl rfl rfl
  rw [h.1]
  refine ⟨?_, rfl⟩
  show some (Except.ok ((100 : ℚ) - 2500 / 100)) = some (Except.ok 75)
  norm_num

end Billing
